import Mathlib

/-!
# Spring rendering plumbing: shader-object cache and Lua material bins

A shallow embedding of `rts/Rendering/Shaders/ShaderHandler.cpp` and
`rts/Lua/LuaMaterial.cpp`, with the properties of the program-object cache,
the material comparison, the material bins and their reference counts, the
GL call sequences issued by `Execute`, and the texture-unit bounds of `Parse`.

Conventions of the embedding:
* pointers are natural numbers (addresses); `new` hands out an address that
  was never handed out before;
* `std::map`/`std::unordered_map` with string keys are association lists that
  are only read and written through `find`, `assign` and `erase`;
* GL calls and calls into registered callbacks are recorded, in order, in a
  list of events that the embedded function returns;
* declarations that live in headers outside the translated sources
  (enumerator values, `LuaMatTexture`, the Lua C API) are parameters.
-/

set_option autoImplicit false

namespace Spring

/-! ## String-keyed maps -/

/-- The map `std::map<std::string, V>` seen through its interface: a list of
key/value pairs. -/
abbrev StrMap (V : Type) := List (String × V)

namespace StrMap

variable {V : Type}

/-- The value stored under `k`, `none` standing for `m.find(k) == m.end()`. -/
def find : StrMap V → String → Option V
  | [], _ => none
  | (k', v) :: m, k => if k' = k then some v else find m k

/-- The assignment `m[k] = v`: overwrites the entry of `k`, or adds one. -/
def assign : StrMap V → String → V → StrMap V
  | [], k, v => [(k, v)]
  | (k', v') :: m, k, v => if k' = k then (k, v) :: m else (k', v') :: assign m k v

/-- The call `m.erase(k)`: no entry with key `k` is left. -/
def erase : StrMap V → String → StrMap V
  | [], _ => []
  | (k', v') :: m, k => if k' = k then erase m k else (k', v') :: erase m k

end StrMap

/-! ## CShaderHandler -/

/-- Modelled from the spec: `Shader::nullProgramObject` is declared in
`Shader.h`, which is not among the sources. It is the address of the null
object; the addresses returned by `new` are positive and so differ from it. -/
def nullProgramObject : Nat := 0

/-- Modelled from the spec: `ProgramObjMap` is declared in `ShaderHandler.h`,
which is not among the sources. The handler is a keyed cache: this level is
keyed by program name and holds program object addresses. -/
abbrev ProgramObjMap := StrMap Nat

/-- Modelled from the spec: `ProgramTable` is declared in `ShaderHandler.h`,
which is not among the sources. The outer level of the cache is keyed by
class name and holds a `ProgramObjMap`. -/
abbrev ProgramTable := StrMap ProgramObjMap

/-- The state of `CShaderHandler` together with the part of the heap it owns.
`programObjects[false]` and `programObjects[true]` are the two tables,
`shaderCache` holds the hashes of cached programs, `created` counts the
program objects made by `new` so far and `deleted` lists the freed ones. -/
structure CShaderHandler where
  nonPersistent : ProgramTable
  persistentTable : ProgramTable
  shaderCache : List Nat
  created : Nat
  deleted : List Nat
  deriving DecidableEq, Repr

namespace CShaderHandler

/-- The table `programObjects[persistent]`. -/
def table (h : CShaderHandler) (persistent : Bool) : ProgramTable :=
  if persistent then h.persistentTable else h.nonPersistent

/-- Stores `t` as `programObjects[persistent]`. -/
def setTable (h : CShaderHandler) (persistent : Bool) (t : ProgramTable) : CShaderHandler :=
  if persistent then { h with persistentTable := t } else { h with nonPersistent := t }

/-- The body of the loop of `ReleaseProgramObjectsMap` over the entries of
`poMap`: null objects are skipped, any other object has its hash dropped from
the shader cache (`shaderCache.Find` erases) and is released and deleted.
`getHash` stands for `IProgramObject::GetHash`. -/
def releaseLoop (getHash : Nat → Nat) : ProgramObjMap → CShaderHandler → CShaderHandler
  | [], h => h
  | (_, po) :: rest, h =>
    if po = nullProgramObject then releaseLoop getHash rest h
    else releaseLoop getHash rest
      { h with shaderCache := h.shaderCache.filter (fun x => x ≠ getHash po),
               deleted := po :: h.deleted }

/-- `CShaderHandler::ReleaseProgramObjectsMap` applied to a map held by value:
the objects are freed; the map itself ends up cleared (`poMap.clear()`), which
the caller accounts for. -/
def ReleaseProgramObjectsMap (getHash : Nat → Nat) (poMap : ProgramObjMap)
    (h : CShaderHandler) : CShaderHandler :=
  releaseLoop getHash poMap h

/-- `CShaderHandler::ReleaseProgramObjects`. -/
def ReleaseProgramObjects (getHash : Nat → Nat) (h : CShaderHandler) (poClass : String)
    (persistent : Bool) : Bool × CShaderHandler :=
  match StrMap.find (h.table persistent) poClass with
  | none => (false, h)
  | some poMap =>
    let h1 := ReleaseProgramObjectsMap getHash poMap h
    -- the map is cleared in place, then its entry is erased
    let pTable := StrMap.assign (h1.table persistent) poClass []
    (true, h1.setTable persistent (StrMap.erase pTable poClass))

/-- The tail of `CreateProgramObject`: `new Shader::GLSLProgramObject(poName)`
followed by `pTable[poClass][poName] = po`, for a table that has `poMap` under
`poClass`. -/
def createNew (h : CShaderHandler) (poClass poName : String) (persistent : Bool)
    (poMap : ProgramObjMap) : Nat × CShaderHandler :=
  let po := h.created + 1
  let pTable := StrMap.assign (h.table persistent) poClass (StrMap.assign poMap poName po)
  (po, { h.setTable persistent pTable with created := h.created + 1 })

/-- `CShaderHandler::CreateProgramObject`. The warning logged when the object
already exists is not part of the state. -/
def CreateProgramObject (h : CShaderHandler) (poClass poName : String) (persistent : Bool) :
    Nat × CShaderHandler :=
  match StrMap.find (h.table persistent) poClass with
  | some poMap =>
    match StrMap.find poMap poName with
    | some po => (po, h)
    | none => createNew h poClass poName persistent poMap
  | none => createNew h poClass poName persistent []

end CShaderHandler

/-! ## LuaMatShader -/

/-- The enumerators of `LuaMatShader::Type`. The enumeration is declared in
`LuaMaterial.h`; the code only relies on the names, so their values are left
open. -/
structure ShaderTypes where
  LUASHADER_NONE : Int
  LUASHADER_GL : Int
  LUASHADER_DEF_3DO : Int
  LUASHADER_DEF_S3O : Int
  LUASHADER_DEF_OBJ : Int
  LUASHADER_DEF_ASS : Int
  LUASHADER_LAST : Int
  deriving DecidableEq, Repr

/-- An enumeration numbered in declaration order, as the loop of the
`LuaMatHandler` constructor from `LUASHADER_NONE` up to `LUASHADER_LAST`
suggests. Used for concrete instances only. -/
def ShaderTypes.inOrder : ShaderTypes := ⟨0, 1, 2, 3, 4, 5, 6⟩

/-- The data of a `LuaMatShader`: its type (the value of the enumeration) and
the GL program id (`GLuint`). -/
structure LuaMatShader where
  type : Int
  openglID : Nat
  deriving DecidableEq, Repr

/-- The calls that leave a trace: GL calls, calls of the registered draw-state
functions, calls into `LuaMatTexture`, and a failed `assert`. `Tex` is the
type of texture units. -/
inductive GLCall (Tex : Type) where
  | glUseProgram (id : Nat)
  | resetDrawState (type : Int) (deferredPass : Bool)
  | setupDrawState (type : Int) (deferredPass : Bool)
  | assertFalse
  | glCallList (list : Nat)
  | glUniformMatrix4fv (loc : Int) (source : String)
  | glUniformf3 (loc : Int) (source : String)
  | glUniform4fv (loc : Int) (source : String)
  | glActiveTexture (unit : Int)
  | texUnbind (tex : Tex)
  | texBind (tex : Tex)
  | glPopMatrix
  | glPushMatrix
  | glLoadIdentity
  | glEnableCullFace
  | glCullFace (mode : Nat)
  | glDisableCullFace
  deriving DecidableEq, Repr

namespace LuaMatShader

/-- `LuaMatShader::Finalize`. -/
def Finalize (E : ShaderTypes) (s : LuaMatShader) : LuaMatShader :=
  if s.type ≠ E.LUASHADER_GL then { s with openglID := 0 } else s

/-- `LuaMatShader::Compare`. -/
def Compare (E : ShaderTypes) (a b : LuaMatShader) : Int :=
  if a.type ≠ b.type then
    (if a.type < b.type then -1 else 1)
  else if a.type = E.LUASHADER_GL then
    if a.openglID ≠ b.openglID then
      (if a.openglID < b.openglID then -1 else 1)
    else 0
  else 0

/-- Whether `t` is one of the four `LUASHADER_DEF_*` case labels. -/
def isDef (E : ShaderTypes) (t : Int) : Bool :=
  t = E.LUASHADER_DEF_3DO || t = E.LUASHADER_DEF_S3O || t = E.LUASHADER_DEF_OBJ ||
    t = E.LUASHADER_DEF_ASS

/-- The first `switch` of `Execute`, over `prev.type`. `resetFuncs t` tells
whether `luaMatHandler.resetDrawStateFuncs[t]` is set. -/
def resetPrev {Tex : Type} (E : ShaderTypes) (resetFuncs : Int → Bool) (prev : LuaMatShader)
    (deferredPass : Bool) : List (GLCall Tex) :=
  if prev.type = E.LUASHADER_GL then [GLCall.glUseProgram 0]
  else if isDef E prev.type then
    (if resetFuncs prev.type then [GLCall.resetDrawState prev.type deferredPass] else [])
  else if prev.type = E.LUASHADER_NONE then []
  else [GLCall.assertFalse]

/-- The second `switch` of `Execute`, over `type`. `setupFuncs t` tells
whether `luaMatHandler.setupDrawStateFuncs[t]` is set. -/
def setupThis {Tex : Type} (E : ShaderTypes) (setupFuncs : Int → Bool) (s : LuaMatShader)
    (deferredPass : Bool) : List (GLCall Tex) :=
  if s.type = E.LUASHADER_GL then [GLCall.glUseProgram s.openglID]
  else if isDef E s.type then
    (if setupFuncs s.type then [GLCall.setupDrawState s.type deferredPass] else [])
  else if s.type = E.LUASHADER_NONE then []
  else [GLCall.assertFalse]

/-- `LuaMatShader::Execute`: the calls it issues, in order. -/
def Execute {Tex : Type} (E : ShaderTypes) (setupFuncs resetFuncs : Int → Bool)
    (s prev : LuaMatShader) (deferredPass : Bool) : List (GLCall Tex) :=
  if s.type ≠ prev.type then
    resetPrev E resetFuncs prev deferredPass ++ setupThis E setupFuncs s deferredPass
  else if s.type = E.LUASHADER_GL then
    (if s.openglID ≠ prev.openglID then [GLCall.glUseProgram s.openglID] else [])
  else []

end LuaMatShader

/-! ## LuaMaterial -/

/-- The data members of `LuaMaterial` that the translated functions read or
write. `Tex` stands for `LuaMatTexture`. The array `textures[maxTexUnits]` is
a function of the unit index; `shaders[LUASHADER_PASS_FWD]` and
`shaders[LUASHADER_PASS_DFR]` are `shaderFwd` and `shaderDfr`. `GLuint` and
`GLenum` members are naturals, `int`, `GLint` and enumeration members are
integers. -/
structure LuaMaterial (Tex : Type) where
  type : Int
  order : Int
  shaderFwd : LuaMatShader
  shaderDfr : LuaMatShader
  textures : Nat → Tex
  texCount : Int
  preList : Nat
  postList : Nat
  useCamera : Bool
  cullingMode : Nat
  viewMatrixLoc : Int
  projMatrixLoc : Int
  viprMatrixLoc : Int
  viewMatrixInvLoc : Int
  projMatrixInvLoc : Int
  viprMatrixInvLoc : Int
  cameraPosLoc : Int
  cameraDirLoc : Int
  sunDirLoc : Int
  shadowMatrixLoc : Int
  shadowParamsLoc : Int

namespace LuaMaterial

variable {Tex : Type}

/-- The element `shaders[deferredPass]`. The enumerators
`LUASHADER_PASS_FWD` and `LUASHADER_PASS_DFR` are declared in `LuaMaterial.h`;
the `bool` indexes the array of the two slots, the deferred pass reading the
deferred one. -/
def shaders (m : LuaMaterial Tex) (deferredPass : Bool) : LuaMatShader :=
  if deferredPass then m.shaderDfr else m.shaderFwd

/-- The loop `for (t = 0; t < maxTex; t++)` of `Compare`, started at unit `t`
with `n` iterations to go: the first non-zero texture comparison, 0 if there
is none. `texCompare` stands for `LuaMatTexture::Compare`. -/
def compareTextures (texCompare : Tex → Tex → Int) (a b : Nat → Tex) : Nat → Nat → Int
  | _, 0 => 0
  | t, n + 1 =>
    if texCompare (a t) (b t) ≠ 0 then texCompare (a t) (b t)
    else compareTextures texCompare a b (t + 1) n

/-- `LuaMaterial::Compare`. -/
def Compare (E : ShaderTypes) (texCompare : Tex → Tex → Int) (a b : LuaMaterial Tex) : Int :=
  if a.type ≠ b.type then (if a.type < b.type then -1 else 1) else
  if a.order ≠ b.order then (if a.order < b.order then -1 else 1) else
  if LuaMatShader.Compare E a.shaderFwd b.shaderFwd ≠ 0 then
    LuaMatShader.Compare E a.shaderFwd b.shaderFwd else
  if LuaMatShader.Compare E a.shaderDfr b.shaderDfr ≠ 0 then
    LuaMatShader.Compare E a.shaderDfr b.shaderDfr else
  if compareTextures texCompare a.textures b.textures 0 (min a.texCount b.texCount).toNat ≠ 0 then
    compareTextures texCompare a.textures b.textures 0 (min a.texCount b.texCount).toNat else
  if a.texCount ≠ b.texCount then (if a.texCount < b.texCount then -1 else 1) else
  if a.preList ≠ b.preList then (if a.preList < b.preList then -1 else 1) else
  if a.postList ≠ b.postList then (if a.postList < b.postList then -1 else 1) else
  if a.useCamera ≠ b.useCamera then (if a.useCamera then -1 else 1) else
  if a.cullingMode ≠ b.cullingMode then (if a.cullingMode < b.cullingMode then -1 else 1) else
  if a.viewMatrixLoc ≠ b.viewMatrixLoc then
    (if a.viewMatrixLoc < b.viewMatrixLoc then -1 else 1) else
  if a.projMatrixLoc ≠ b.projMatrixLoc then
    (if a.projMatrixLoc < b.projMatrixLoc then -1 else 1) else
  if a.viprMatrixLoc ≠ b.viprMatrixLoc then
    (if a.viprMatrixLoc < b.viprMatrixLoc then -1 else 1) else
  if a.viewMatrixInvLoc ≠ b.viewMatrixInvLoc then
    (if a.viewMatrixInvLoc < b.viewMatrixInvLoc then -1 else 1) else
  if a.projMatrixInvLoc ≠ b.projMatrixInvLoc then
    (if a.projMatrixInvLoc < b.projMatrixInvLoc then -1 else 1) else
  if a.viprMatrixInvLoc ≠ b.viprMatrixInvLoc then
    (if a.viprMatrixInvLoc < b.viprMatrixInvLoc then -1 else 1) else
  if a.cameraPosLoc ≠ b.cameraPosLoc then
    (if a.cameraPosLoc < b.cameraPosLoc then -1 else 1) else
  if a.cameraDirLoc ≠ b.cameraDirLoc then
    (if a.cameraDirLoc < b.cameraDirLoc then -1 else 1) else
  if a.sunDirLoc ≠ b.sunDirLoc then (if a.sunDirLoc < b.sunDirLoc then -1 else 1) else
  if a.shadowMatrixLoc ≠ b.shadowMatrixLoc then
    (if a.shadowMatrixLoc < b.shadowMatrixLoc then -1 else 1) else
  if a.shadowParamsLoc ≠ b.shadowParamsLoc then
    (if a.shadowParamsLoc < b.shadowParamsLoc then -1 else 1) else
  0

/-- One upload `if (loc >= 0) upload(loc, value)` of `Execute`. -/
def uniformCall (loc : Int) (call : GLCall Tex) : List (GLCall Tex) :=
  if 0 ≤ loc then [call] else []

/-- The uniform uploads of `Execute`, in the order of the source. The second
argument of each event names the engine value that is uploaded. -/
def uniformCalls (m : LuaMaterial Tex) : List (GLCall Tex) :=
  uniformCall m.viewMatrixLoc (GLCall.glUniformMatrix4fv m.viewMatrixLoc "camera->GetViewMatrix()") ++
  uniformCall m.projMatrixLoc
    (GLCall.glUniformMatrix4fv m.projMatrixLoc "camera->GetProjectionMatrix()") ++
  uniformCall m.viprMatrixLoc
    (GLCall.glUniformMatrix4fv m.viprMatrixLoc "camera->GetViewProjectionMatrix()") ++
  uniformCall m.viewMatrixInvLoc
    (GLCall.glUniformMatrix4fv m.viewMatrixInvLoc "camera->GetViewMatrixInverse()") ++
  uniformCall m.projMatrixInvLoc
    (GLCall.glUniformMatrix4fv m.projMatrixInvLoc "camera->GetProjectionMatrixInverse()") ++
  uniformCall m.viprMatrixInvLoc
    (GLCall.glUniformMatrix4fv m.viprMatrixInvLoc "camera->GetViewProjectionMatrixInverse()") ++
  uniformCall m.cameraPosLoc (GLCall.glUniformf3 m.cameraPosLoc "camera->GetPos()") ++
  uniformCall m.cameraDirLoc (GLCall.glUniformf3 m.cameraDirLoc "camera->GetDir()") ++
  uniformCall m.sunDirLoc (GLCall.glUniformf3 m.sunDirLoc "sky->GetLight()->GetLightDir()") ++
  uniformCall m.shadowMatrixLoc
    (GLCall.glUniformMatrix4fv m.shadowMatrixLoc "shadowHandler->GetShadowMatrixRaw()") ++
  uniformCall m.shadowParamsLoc
    (GLCall.glUniform4fv m.shadowParamsLoc "shadowHandler->GetShadowParams()")

/-- The loop `for (t = maxTex - 1; t >= 0; t--)` of `Execute` with `n` units
to go, that is the units `n - 1` down to 0. `GL_TEXTURE0 + t` is recorded as
the offset `t`. -/
def textureCalls (m prev : LuaMaterial Tex) : Nat → List (GLCall Tex)
  | 0 => []
  | n + 1 =>
    [GLCall.glActiveTexture n, GLCall.texUnbind (prev.textures n), GLCall.texBind (m.textures n)]
      ++ textureCalls m prev n

/-- The camera block of `Execute`. -/
def cameraCalls (m prev : LuaMaterial Tex) : List (GLCall Tex) :=
  if m.useCamera ≠ prev.useCamera then
    (if m.useCamera then [GLCall.glPopMatrix] else [GLCall.glPushMatrix, GLCall.glLoadIdentity])
  else []

/-- The culling block of `Execute`. -/
def cullingCalls (m prev : LuaMaterial Tex) : List (GLCall Tex) :=
  if m.cullingMode ≠ prev.cullingMode then
    (if m.cullingMode ≠ 0 then [GLCall.glEnableCullFace, GLCall.glCullFace m.cullingMode]
     else [GLCall.glDisableCullFace])
  else []

/-- `LuaMaterial::Execute`: the calls it issues, in order. -/
def Execute (E : ShaderTypes) (setupFuncs resetFuncs : Int → Bool)
    (m prev : LuaMaterial Tex) (deferredPass : Bool) : List (GLCall Tex) :=
  (if prev.postList ≠ 0 then [GLCall.glCallList prev.postList] else []) ++
  (if m.preList ≠ 0 then [GLCall.glCallList m.preList] else []) ++
  LuaMatShader.Execute E setupFuncs resetFuncs (m.shaders deferredPass)
    (prev.shaders deferredPass) deferredPass ++
  uniformCalls m ++
  textureCalls m prev (max m.texCount prev.texCount).toNat ++
  cameraCalls m prev ++
  cullingCalls m prev

end LuaMaterial

/-! ## Three-way comparators -/

/-- How the results of a three-way comparison on the pairs `(a, b)`, `(b, c)`
and `(a, c)` relate when the comparison is transitive, in both directions. -/
def Tri (x y z : Int) : Prop :=
  (x ≤ 0 → y ≤ 0 → z ≤ 0 ∧ (x < 0 ∨ y < 0 → z < 0)) ∧
  (0 ≤ x → 0 ≤ y → 0 ≤ z ∧ (0 < x ∨ 0 < y → 0 < z))

/-- The idiom `if ((cmp = x) != 0) return cmp; return y;`. -/
def lexv (x y : Int) : Int := if x ≠ 0 then x else y

/-- The idiom `if (x != y) return (x < y) ? -1 : +1; return 0;` on integers. -/
def cmpI (x y : Int) : Int := if x ≠ y then (if x < y then -1 else 1) else 0

/-- The same idiom on unsigned values. -/
def cmpN (x y : Nat) : Int := if x ≠ y then (if x < y then -1 else 1) else 0

/-- The idiom `if (x != y) return x ? -1 : +1; return 0;` on booleans. -/
def cmpB (x y : Bool) : Int := if x ≠ y then (if x then -1 else 1) else 0

/-- Lexicographic three-way comparison of two sequences, a proper prefix
coming first. -/
def seqCmp {α : Type} (f : α → α → Int) : List α → List α → Int
  | [], [] => 0
  | [], _ :: _ => -1
  | _ :: _, [] => 1
  | x :: xs, y :: ys => lexv (f x y) (seqCmp f xs ys)

/-- A three-way comparator is antisymmetric when swapping the arguments
negates the result. -/
def Antisymmetric3 {α : Type} (f : α → α → Int) : Prop :=
  ∀ a b, f b a = - f a b

/-- A three-way comparator is transitive when `f a b ≤ 0` and `f b c ≤ 0`
give `f a c ≤ 0`, strictly if either is strict. -/
def Transitive3 {α : Type} (f : α → α → Int) : Prop :=
  ∀ a b c, f a b ≤ 0 → f b c ≤ 0 → f a c ≤ 0 ∧ (f a b < 0 ∨ f b c < 0 → f a c < 0)

/-- The texture units a material uses: `textures[0 .. texCount)`. -/
def LuaMaterial.usedTextures {Tex : Type} (m : LuaMaterial Tex) : List Tex :=
  (List.range' 0 m.texCount.toNat).map m.textures

/-- The comparison that the texture block of `Compare` amounts to: materials
with a negative `texCount` come first, in the order of that count; the others
are ordered by the sequence of their used texture units. -/
def texKeyCmp {Tex : Type} (f : Tex → Tex → Int) (a b : LuaMaterial Tex) : Int :=
  lexv (cmpI (min a.texCount 0) (min b.texCount 0)) (seqCmp f a.usedTextures b.usedTextures)

/-! ## Concrete materials -/

/-- A material without lists, uniforms or textures, of material type 1 and
with two `LUASHADER_NONE` shaders under `ShaderTypes.inOrder`; its texture
units are integers. -/
def plainMat : LuaMaterial Int where
  type := 1
  order := 0
  shaderFwd := ⟨0, 0⟩
  shaderDfr := ⟨0, 0⟩
  textures := fun _ => 0
  texCount := 0
  preList := 0
  postList := 0
  useCamera := true
  cullingMode := 0
  viewMatrixLoc := -1
  projMatrixLoc := -1
  viprMatrixLoc := -1
  viewMatrixInvLoc := -1
  projMatrixInvLoc := -1
  viprMatrixInvLoc := -1
  cameraPosLoc := -1
  cameraDirLoc := -1
  sunDirLoc := -1
  shadowMatrixLoc := -1
  shadowParamsLoc := -1

/-- The plain material with one texture unit in use, holding 5. -/
def oneTexMat : LuaMaterial Int :=
  { plainMat with textures := fun t => if t = 0 then 5 else 0, texCount := 1 }

/-- The plain material with two texture units in use, holding 5 and 2. -/
def twoTexMat : LuaMaterial Int :=
  { plainMat with textures := fun t => if t = 0 then 5 else 2, texCount := 2 }

/-- A material with both display lists, a view-matrix uniform and one
texture unit. -/
def listMat : LuaMaterial Int :=
  { oneTexMat with preList := 2, postList := 3, viewMatrixLoc := 0 }

/-! ## LuaMatBin, LuaMatRef, LuaMatHandler -/

/-- A `LuaMatBin`: the `LuaMaterial` it derives from and its reference count.
The unit and feature lists of a bin play no part in what follows. -/
structure LuaMatBin (Tex : Type) where
  mat : LuaMaterial Tex
  refCount : Int

/-- Modelled from the spec: the constructor `LuaMatBin(const LuaMaterial&)` is
declared in `LuaMaterial.h`, which is not among the sources. Bins are
reference counted, so a new bin copies the material and counts no reference
yet. -/
def LuaMatBin.ofMaterial {Tex : Type} (mat : LuaMaterial Tex) : LuaMatBin Tex := ⟨mat, 0⟩

/-- Modelled from the spec: the default constructor `LuaMatRef()` is declared
in `LuaMaterial.h`, which is not among the sources. It makes the empty
reference, whose member `bin` is `NULL`. -/
def LuaMatRef.null : Option Nat := none

/-- The state of `LuaMatHandler` with the bins it owns. `binTypes t` is the
set `binTypes[t]` of bin addresses in iteration order, `heap` maps the
address of a live bin to the bin, `allocated` counts the bins made by `new`
so far; the next one gets the address `allocated + 1`. -/
structure LuaMatHandler (Tex : Type) where
  binTypes : Int → List Nat
  heap : Nat → Option (LuaMatBin Tex)
  allocated : Nat

namespace LuaMatHandler

variable {Tex : Type}

/-- The handler after its constructor: no bins. -/
def empty : LuaMatHandler Tex := ⟨fun _ => [], fun _ => none, 0⟩

/-- Modelled from the spec: the comparator `LuaMatBinPtrLessThan` of
`LuaMatBinSet` is declared in `LuaMaterial.h`, which is not among the sources.
The bin set is ordered by `LuaMaterial::Compare`: a bin comes before another
when `Compare` of their materials is negative. -/
def matLess (E : ShaderTypes) (f : Tex → Tex → Int) (x y : LuaMaterial Tex) : Bool :=
  decide (LuaMaterial.Compare E f x y < 0)

/-- Equivalence of keys in a `std::set`: neither comes before the other. -/
def matEquiv (E : ShaderTypes) (f : Tex → Tex → Int) (x y : LuaMaterial Tex) : Bool :=
  !matLess E f x y && !matLess E f y x

/-- The call `binSet.find(key)` for a key with material `m`: the element of
the set that is equivalent to the key, `none` for `binSet.end()`. -/
def setFind (E : ShaderTypes) (f : Tex → Tex → Int) (heap : Nat → Option (LuaMatBin Tex)) :
    List Nat → LuaMaterial Tex → Option Nat
  | [], _ => none
  | e :: rest, m =>
    match heap e with
    | some b => if matEquiv E f b.mat m then some e else setFind E f heap rest m
    | none => setFind E f heap rest m

/-- Where `binSet.insert(bin)` puts a bin with material `m` that has no
equivalent in the set: before the first element that comes after it. -/
def insertSorted (E : ShaderTypes) (f : Tex → Tex → Int) (heap : Nat → Option (LuaMatBin Tex))
    (m : LuaMaterial Tex) (bin : Nat) : List Nat → List Nat
  | [] => [bin]
  | e :: rest =>
    match heap e with
    | some b =>
      if matLess E f m b.mat then bin :: e :: rest
      else e :: insertSorted E f heap m bin rest
    | none => e :: insertSorted E f heap m bin rest

/-- The call `binSet.insert(bin)`: nothing is inserted when the set holds an
equivalent element. -/
def setInsert (E : ShaderTypes) (f : Tex → Tex → Int) (heap : Nat → Option (LuaMatBin Tex))
    (set : List Nat) (m : LuaMaterial Tex) (bin : Nat) : List Nat :=
  match setFind E f heap set m with
  | some _ => set
  | none => insertSorted E f heap m bin set

/-- `LuaMatBin::Ref` on the bin at address `bin`. -/
def Ref (h : LuaMatHandler Tex) (bin : Nat) : LuaMatHandler Tex :=
  match h.heap bin with
  | some b =>
    { h with heap := Function.update h.heap bin (some { b with refCount := b.refCount + 1 }) }
  | none => h

/-- `LuaMatHandler::FreeBin`. -/
def FreeBin (E : ShaderTypes) (f : Tex → Tex → Int) (h : LuaMatHandler Tex) (bin : Nat) :
    LuaMatHandler Tex :=
  match h.heap bin with
  | none => h
  | some b =>
    match setFind E f h.heap (h.binTypes b.mat.type) b.mat with
    | some it =>
      { h with heap := Function.update h.heap bin none,
               binTypes := Function.update h.binTypes b.mat.type
                 ((h.binTypes b.mat.type).erase it) }
    | none => h

/-- `LuaMatBin::UnRef` on the bin at address `bin`. -/
def UnRef (E : ShaderTypes) (f : Tex → Tex → Int) (h : LuaMatHandler Tex) (bin : Nat) :
    LuaMatHandler Tex :=
  match h.heap bin with
  | none => h
  | some b =>
    let h1 : LuaMatHandler Tex :=
      { h with heap := Function.update h.heap bin (some { b with refCount := b.refCount - 1 }) }
    if b.refCount - 1 ≤ 0 then FreeBin E f h1 bin else h1

end LuaMatHandler

/-! A `LuaMatRef` is its member `bin`: `none` for `NULL`, else the address
of a bin. Each operation returns the new value of the reference with the new
handler state. -/

namespace LuaMatRef

variable {Tex : Type}

/-- The constructor `LuaMatRef::LuaMatRef(LuaMatBin* _bin)`. -/
def ofBin (h : LuaMatHandler Tex) (bin : Option Nat) : Option Nat × LuaMatHandler Tex :=
  match bin with
  | some b => (some b, h.Ref b)
  | none => (none, h)

/-- The destructor `LuaMatRef::~LuaMatRef`. -/
def destroy (E : ShaderTypes) (f : Tex → Tex → Int) (h : LuaMatHandler Tex) (self : Option Nat) :
    LuaMatHandler Tex :=
  match self with
  | some b => h.UnRef E f b
  | none => h

/-- `LuaMatRef::Reset`. -/
def Reset (E : ShaderTypes) (f : Tex → Tex → Int) (h : LuaMatHandler Tex) (self : Option Nat) :
    Option Nat × LuaMatHandler Tex :=
  match self with
  | some b => (none, h.UnRef E f b)
  | none => (none, h)

/-- `LuaMatRef::operator=`. -/
def assign (E : ShaderTypes) (f : Tex → Tex → Int) (h : LuaMatHandler Tex)
    (self mr : Option Nat) : Option Nat × LuaMatHandler Tex :=
  if self ≠ mr then
    let h1 := match self with
      | some b => h.UnRef E f b
      | none => h
    let h2 := match mr with
      | some b => h1.Ref b
      | none => h1
    (mr, h2)
  else (self, h)

/-- The copy constructor `LuaMatRef::LuaMatRef(const LuaMatRef& mr)`. -/
def copy (h : LuaMatHandler Tex) (mr : Option Nat) : Option Nat × LuaMatHandler Tex :=
  match mr with
  | some b => (some b, h.Ref b)
  | none => (none, h)

end LuaMatRef

namespace LuaMatHandler

variable {Tex : Type}

/-- `LuaMatHandler::GetRef`. `typeCount` is the enumerator
`LUAMAT_TYPE_COUNT`. The warning logged for an untyped material is not part
of the state. -/
def GetRef (E : ShaderTypes) (f : Tex → Tex → Int) (typeCount : Int) (h : LuaMatHandler Tex)
    (mat : LuaMaterial Tex) : Option Nat × LuaMatHandler Tex :=
  if mat.type < 0 ∨ mat.type ≥ typeCount then (LuaMatRef.null, h)
  else
    match setFind E f h.heap (h.binTypes mat.type) mat with
    | some it => LuaMatRef.ofBin h (some it)
    | none =>
      let bin := h.allocated + 1
      let heap1 := Function.update h.heap bin (some (LuaMatBin.ofMaterial mat))
      let h1 : LuaMatHandler Tex :=
        { binTypes := Function.update h.binTypes mat.type
            (setInsert E f heap1 (h.binTypes mat.type) mat bin),
          heap := heap1,
          allocated := h.allocated + 1 }
      LuaMatRef.ofBin h1 (some bin)

end LuaMatHandler

/-! ## The references of a program -/

/-- A handler together with the `LuaMatRef` objects of the program. The
object with id `i` is `refs[i]`: `none` once it is destroyed, else `some bin`
with `bin` its member. -/
structure MatWorld (Tex : Type) where
  handler : LuaMatHandler Tex
  refs : List (Option (Option Nat))

/-- What a program can do with references. -/
inductive RefOp (Tex : Type) where
  /-- a new object initialised with `luaMatHandler.GetRef(mat)` -/
  | getRef (mat : LuaMaterial Tex)
  /-- a new object made by the default constructor -/
  | construct
  /-- a new object copy-constructed from object `i` -/
  | copy (i : Nat)
  /-- the assignment of object `j` to object `i` -/
  | assign (i j : Nat)
  /-- `Reset` of object `i` -/
  | reset (i : Nat)
  /-- the destruction of object `i` -/
  | destroy (i : Nat)

namespace MatWorld

variable {Tex : Type}

/-- The member `bin` of object `i` if the object is live. -/
def liveRef (w : MatWorld Tex) (i : Nat) : Option (Option Nat) :=
  (w.refs.get? i).join

/-- The number of live `LuaMatRef` objects that point at the bin `addr`. -/
def refsTo (w : MatWorld Tex) (addr : Nat) : Nat :=
  w.refs.count (some (some addr))

/-- One operation of the program. Operations on objects that are not live
do nothing. -/
def step (E : ShaderTypes) (f : Tex → Tex → Int) (typeCount : Int) (w : MatWorld Tex) :
    RefOp Tex → MatWorld Tex
  | RefOp.getRef mat =>
    let r := w.handler.GetRef E f typeCount mat
    ⟨r.2, w.refs ++ [some r.1]⟩
  | RefOp.construct => ⟨w.handler, w.refs ++ [some LuaMatRef.null]⟩
  | RefOp.copy i =>
    match w.liveRef i with
    | some mr =>
      let r := LuaMatRef.copy w.handler mr
      ⟨r.2, w.refs ++ [some r.1]⟩
    | none => w
  | RefOp.assign i j =>
    match w.liveRef i, w.liveRef j with
    | some self, some mr =>
      let r := LuaMatRef.assign E f w.handler self mr
      ⟨r.2, w.refs.set i (some r.1)⟩
    | _, _ => w
  | RefOp.reset i =>
    match w.liveRef i with
    | some self =>
      let r := LuaMatRef.Reset E f w.handler self
      ⟨r.2, w.refs.set i (some r.1)⟩
    | none => w
  | RefOp.destroy i =>
    match w.liveRef i with
    | some self => ⟨LuaMatRef.destroy E f w.handler self, w.refs.set i none⟩
    | none => w

/-- The world after a list of operations. -/
def run (E : ShaderTypes) (f : Tex → Tex → Int) (typeCount : Int) (w : MatWorld Tex) :
    List (RefOp Tex) → MatWorld Tex
  | [] => w
  | op :: ops => run E f typeCount (step E f typeCount w op) ops

/-- The world at program start: an empty handler and no references. -/
def init : MatWorld Tex := ⟨LuaMatHandler.empty, []⟩

end MatWorld

/-- The worlds a program can reach from an empty handler. -/
inductive Reachable {Tex : Type} (E : ShaderTypes) (f : Tex → Tex → Int) (typeCount : Int) :
    MatWorld Tex → Prop where
  | init : Reachable E f typeCount MatWorld.init
  | step (w : MatWorld Tex) (op : RefOp Tex) :
    Reachable E f typeCount w → Reachable E f typeCount (MatWorld.step E f typeCount w op)

/-- No two bins of the set `binTypes[t]` have materials that compare equal. -/
def NoEqualBins {Tex : Type} (E : ShaderTypes) (f : Tex → Tex → Int) (h : LuaMatHandler Tex)
    (t : Int) : Prop :=
  (h.binTypes t).Pairwise (fun x y => ∀ bx cy, h.heap x = some bx → h.heap y = some cy →
    LuaMaterial.Compare E f bx.mat cy.mat ≠ 0)

/-- The invariant that ties the bins of a handler to the number `cnt addr` of
live references to each address. -/
structure BinInv {Tex : Type} (E : ShaderTypes) (f : Tex → Tex → Int) (h : LuaMatHandler Tex)
    (cnt : Nat → Nat) : Prop where
  counted : ∀ t addr, addr ∈ h.binTypes t →
    ∃ bin, h.heap addr = some bin ∧ bin.mat.type = t ∧ bin.refCount = cnt addr ∧ 1 ≤ cnt addr
  distinct : ∀ t, (h.binTypes t).Pairwise (fun x y => ∀ bx cy, h.heap x = some bx →
    h.heap y = some cy → LuaMatHandler.matEquiv E f bx.mat cy.mat = false)
  held : ∀ addr, 1 ≤ cnt addr → ∃ bin, h.heap addr = some bin ∧ addr ∈ h.binTypes bin.mat.type
  fresh : ∀ addr, (h.heap addr).isSome = true → addr ≤ h.allocated

/-- A world reached by a program: `GetRef(plainMat)` into object 0, then a
copy of object 0. -/
def twoRefWorld : MatWorld Int :=
  MatWorld.step ShaderTypes.inOrder cmpI 5
    (MatWorld.step ShaderTypes.inOrder cmpI 5 MatWorld.init (RefOp.getRef plainMat))
    (RefOp.copy 0)

/-- The plain material with other contents in its unused texture units. -/
def plainMat2 : LuaMaterial Int :=
  { plainMat with textures := fun _ => 9 }

/-! ## LuaMaterial::Parse -/

/-- What `Parse` asks of the Lua C API about a value on the stack. `Val` is
the type of Lua values. The conversions of a Lua number to `GLint`, `GLenum`
and `int` are results of the API, `entries` lists a table in the order in
which `lua_next` walks it, and `checkint` is `none` when `luaL_checkint`
raises an error. -/
structure LuaApi (Val : Type) where
  israwstring : Val → Bool
  tostring : Val → List Char
  isnumber : Val → Bool
  toGLint : Val → Int
  toGLenum : Val → Nat
  istable : Val → Bool
  entries : Val → List (Val × Val)
  israwnumber : Val → Bool
  toint : Val → Int
  checkint : Val → Option Int
  isboolean : Val → Bool
  toboolean : Val → Bool

/-- The conversion of an `int` to `unsigned int`. -/
def toUnsigned (x : Int) : Nat := (x % 2 ^ 32).toNat

/-- The characters that `isspace` accepts in the C locale. -/
def isSpace (c : Char) : Bool :=
  c.toNat = 32 || (9 ≤ c.toNat && c.toNat ≤ 13)

/-- The value of the leading decimal digits of a string, continuing from
`acc`. -/
def digitsValue : List Char → Int → Int
  | [], acc => acc
  | c :: cs, acc =>
    if c.isDigit then digitsValue cs (acc * 10 + ((c.toNat : Int) - 48)) else acc

/-- The C library function `atoi`: white space, an optional sign, decimal
digits. The result is the value of the digits as an integer; C leaves the
result open when that value does not fit an `int`. -/
def atoi (s : List Char) : Int :=
  match s.dropWhile isSpace with
  | [] => 0
  | c :: r =>
    if c = '-' then - digitsValue r 0
    else if c = '+' then digitsValue r 0
    else digitsValue (c :: r) 0

/-- `StringToLower`. -/
def StringToLower (s : List Char) : List Char := s.map Char.toLower

/-- The state of a run of `Parse`: the material being filled in, the texture
units that `ParseTexture` was called on so far, and whether a Lua error was
raised, which ends the run. -/
structure ParseState (Tex : Type) where
  mat : LuaMaterial Tex
  texWrites : List Nat
  raised : Bool

/-- The uniform-location members of `LuaMaterial` that `uniformLocs` points
to. -/
inductive UniformLoc where
  | viewMatrixLoc | projMatrixLoc | viprMatrixLoc
  | viewMatrixInvLoc | projMatrixInvLoc | viprMatrixInvLoc
  | cameraPosLoc | cameraDirLoc | sunDirLoc
  | shadowMatrixLoc | shadowParamsLoc
  deriving DecidableEq, Repr

section ParseDefs

variable {Tex Val : Type}

/-- The table `uniformLocs` of `Parse`: the member that a key names. -/
def uniformLocs (key : List Char) : Option UniformLoc :=
  if key = "cameraloc".toList then some UniformLoc.viewMatrixLoc
  else if key = "viewmatrixloc".toList then some UniformLoc.viewMatrixLoc
  else if key = "projmatrixloc".toList then some UniformLoc.projMatrixLoc
  else if key = "viprmatrixloc".toList then some UniformLoc.viprMatrixLoc
  else if key = "camerainvloc".toList then some UniformLoc.viewMatrixInvLoc
  else if key = "viewmatrixinvloc".toList then some UniformLoc.viewMatrixInvLoc
  else if key = "projmatrixinvloc".toList then some UniformLoc.projMatrixInvLoc
  else if key = "viprmatrixinvloc".toList then some UniformLoc.viprMatrixInvLoc
  else if key = "cameraposloc".toList then some UniformLoc.cameraPosLoc
  else if key = "cameradirloc".toList then some UniformLoc.cameraDirLoc
  else if key = "sunposloc".toList then some UniformLoc.sunDirLoc
  else if key = "sundirloc".toList then some UniformLoc.sunDirLoc
  else if key = "shadowloc".toList then some UniformLoc.shadowMatrixLoc
  else if key = "shadowmatrixloc".toList then some UniformLoc.shadowMatrixLoc
  else if key = "shadowparamsloc".toList then some UniformLoc.shadowParamsLoc
  else none

/-- The assignment `*(loc->second) = x` through an entry of `uniformLocs`. -/
def UniformLoc.store (loc : UniformLoc) (m : LuaMaterial Tex) (x : Int) : LuaMaterial Tex :=
  match loc with
  | UniformLoc.viewMatrixLoc => { m with viewMatrixLoc := x }
  | UniformLoc.projMatrixLoc => { m with projMatrixLoc := x }
  | UniformLoc.viprMatrixLoc => { m with viprMatrixLoc := x }
  | UniformLoc.viewMatrixInvLoc => { m with viewMatrixInvLoc := x }
  | UniformLoc.projMatrixInvLoc => { m with projMatrixInvLoc := x }
  | UniformLoc.viprMatrixInvLoc => { m with viprMatrixInvLoc := x }
  | UniformLoc.cameraPosLoc => { m with cameraPosLoc := x }
  | UniformLoc.cameraDirLoc => { m with cameraDirLoc := x }
  | UniformLoc.sunDirLoc => { m with sunDirLoc := x }
  | UniformLoc.shadowMatrixLoc => { m with shadowMatrixLoc := x }
  | UniformLoc.shadowParamsLoc => { m with shadowParamsLoc := x }

/-- The call `ParseTexture(L, -1, textures[texUnit])`. -/
def writeTexture (ParseTexture : Val → Tex → Tex) (st : ParseState Tex) (texUnit : Nat)
    (v : Val) : ParseState Tex :=
  { st with
    mat := { st.mat with
      textures := Function.update st.mat.textures texUnit
        (ParseTexture v (st.mat.textures texUnit)) },
    texWrites := st.texWrites ++ [texUnit] }

/-- The body of the loop over the `texunits` table, for the entry with key
`k` and value `v`. -/
def texUnitsEntry (api : LuaApi Val) (ParseTexture : Val → Tex → Tex) (maxTexUnits : Nat)
    (st : ParseState Tex) (k v : Val) : ParseState Tex :=
  if ¬ api.israwnumber k then st
  else if toUnsigned (api.toint k) ≥ maxTexUnits then st
  else writeTexture ParseTexture st (toUnsigned (api.toint k)) v

/-- The texture branch of `Parse`, taken when the key starts with
`texunit`. -/
def parseTexUnit (api : LuaApi Val) (ParseTexture : Val → Tex → Tex) (maxTexUnits : Nat)
    (st : ParseState Tex) (key : List Char) (v : Val) : ParseState Tex :=
  if key.length < 8 then st
  else if key.get? 7 = some 's' then
    if ¬ api.istable v then st
    else (api.entries v).foldl
      (fun s kv => texUnitsEntry api ParseTexture maxTexUnits s kv.1 kv.2) st
  else if toUnsigned (atoi (key.drop 7)) ≥ maxTexUnits then st
  else writeTexture ParseTexture st (toUnsigned (atoi (key.drop 7))) v

/-- The body of the loop of `Parse` from the comment `shaders` on, for the
lower-case key `key` and the value `v`. -/
def parseKey (api : LuaApi Val) (ParseShader : Val → LuaMatShader → LuaMatShader)
    (ParseTexture : Val → Tex → Tex) (ParseDisplayList : Val → Nat) (maxTexUnits : Nat)
    (st : ParseState Tex) (key : List Char) (v : Val) : ParseState Tex :=
  if key = "shader".toList ∨ key = "standard_shader".toList then
    { st with mat := { st.mat with shaderFwd := ParseShader v st.mat.shaderFwd } }
  else if key = "deferred".toList ∨ key = "deferred_shader".toList then
    { st with mat := { st.mat with shaderDfr := ParseShader v st.mat.shaderDfr } }
  else if key.take 7 = "texunit".toList then
    parseTexUnit api ParseTexture maxTexUnits st key v
  else if key = "prelist".toList then
    { st with mat := { st.mat with preList := ParseDisplayList v } }
  else if key = "postlist".toList then
    { st with mat := { st.mat with postList := ParseDisplayList v } }
  else if key = "order".toList then
    match api.checkint v with
    | some n => { st with mat := { st.mat with order := n } }
    | none => { st with raised := true }
  else if key = "culling".toList then
    (if api.isnumber v then { st with mat := { st.mat with cullingMode := api.toGLenum v } }
     else st)
  else if key = "usecamera".toList then
    { st with mat := { st.mat with useCamera := api.isboolean v && api.toboolean v } }
  else st

/-- The body of the loop of `Parse` for the entry with key `k` and value
`v`. -/
def parseEntry (api : LuaApi Val) (ParseShader : Val → LuaMatShader → LuaMatShader)
    (ParseTexture : Val → Tex → Tex) (ParseDisplayList : Val → Nat) (maxTexUnits : Nat)
    (st : ParseState Tex) (k v : Val) : ParseState Tex :=
  if ¬ api.israwstring k then st
  else
    match uniformLocs (StringToLower (api.tostring k)) with
    | some loc =>
      if ¬ api.isnumber v then st
      else parseKey api ParseShader ParseTexture ParseDisplayList maxTexUnits
        { st with mat := loc.store st.mat (api.toGLint v) } (StringToLower (api.tostring k)) v
    | none =>
      parseKey api ParseShader ParseTexture ParseDisplayList maxTexUnits st
        (StringToLower (api.tostring k)) v

/-- The loop of `Parse` over the entries of the table, ended early by a Lua
error. -/
def parseLoop (api : LuaApi Val) (ParseShader : Val → LuaMatShader → LuaMatShader)
    (ParseTexture : Val → Tex → Tex) (ParseDisplayList : Val → Nat) (maxTexUnits : Nat) :
    List (Val × Val) → ParseState Tex → ParseState Tex
  | [], st => st
  | (k, v) :: rest, st =>
    if (parseEntry api ParseShader ParseTexture ParseDisplayList maxTexUnits st k v).raised then
      parseEntry api ParseShader ParseTexture ParseDisplayList maxTexUnits st k v
    else
      parseLoop api ParseShader ParseTexture ParseDisplayList maxTexUnits rest
        (parseEntry api ParseShader ParseTexture ParseDisplayList maxTexUnits st k v)

/-- `LuaMaterial::Parse` on the material `m` and the table with the entries
`table`. `maxTexUnits` is `LuaMatTexture::maxTexUnits`. -/
def Parse (api : LuaApi Val) (ParseShader : Val → LuaMatShader → LuaMatShader)
    (ParseTexture : Val → Tex → Tex) (ParseDisplayList : Val → Nat) (maxTexUnits : Nat)
    (m : LuaMaterial Tex) (table : List (Val × Val)) : ParseState Tex :=
  parseLoop api ParseShader ParseTexture ParseDisplayList maxTexUnits table ⟨m, [], false⟩

end ParseDefs

/-- Lua values for concrete runs: strings, numbers, booleans and tables with
integer keys and string values. -/
inductive SimpleVal where
  | str (s : String)
  | num (n : Int)
  | bool (b : Bool)
  | tbl (es : List (Int × String))
  deriving DecidableEq, Repr

/-- The Lua API on `SimpleVal`. -/
def simpleApi : LuaApi SimpleVal where
  israwstring v := match v with | SimpleVal.str _ => true | _ => false
  tostring v := match v with | SimpleVal.str s => s.toList | _ => []
  isnumber v := match v with | SimpleVal.num _ => true | _ => false
  toGLint v := match v with | SimpleVal.num n => n | _ => 0
  toGLenum v := match v with | SimpleVal.num n => n.toNat | _ => 0
  istable v := match v with | SimpleVal.tbl _ => true | _ => false
  entries v := match v with
    | SimpleVal.tbl es => es.map (fun e => (SimpleVal.num e.1, SimpleVal.str e.2))
    | _ => []
  israwnumber v := match v with | SimpleVal.num _ => true | _ => false
  toint v := match v with | SimpleVal.num n => n | _ => 0
  checkint v := match v with | SimpleVal.num n => some n | _ => none
  isboolean v := match v with | SimpleVal.bool _ => true | _ => false
  toboolean v := match v with | SimpleVal.bool b => b | _ => false

/-- A material table with texture keys in and out of range. -/
def sampleTable : List (SimpleVal × SimpleVal) :=
  [(SimpleVal.str "texunit-1", SimpleVal.str "a"),
   (SimpleVal.str "TexUnit3", SimpleVal.str "b"),
   (SimpleVal.str "texunit", SimpleVal.str "c"),
   (SimpleVal.str "texunit16", SimpleVal.str "d"),
   (SimpleVal.str "texunits", SimpleVal.tbl [(2, "e"), (-5, "f"), (99, "g")]),
   (SimpleVal.str "order", SimpleVal.num 4)]

/-- The run of `Parse` on `sampleTable` with 16 texture units, `ParseTexture`
storing 1 in the unit. -/
def sampleParse : ParseState Int :=
  Parse simpleApi (fun _ s => s) (fun _ _ => 1) (fun _ => 0) 16 plainMat sampleTable


/-- The texture units written so far are in range and the other units are
as in the material `m` that `Parse` started from. -/
def TexInv {Tex : Type} (maxTexUnits : Nat) (m : LuaMaterial Tex) (st : ParseState Tex) : Prop :=
  (∀ i ∈ st.texWrites, i < maxTexUnits) ∧
  (∀ i, i ∉ st.texWrites → st.mat.textures i = m.textures i)

/-! ## The shader switches, as the specification words them -/

/-- The case labels of the two `switch` statements of `LuaMatShader::Execute`
are pairwise different, as C++ demands of case labels. -/
@[reducible] def ShaderTypes.Distinct (E : ShaderTypes) : Prop :=
  [E.LUASHADER_NONE, E.LUASHADER_GL, E.LUASHADER_DEF_3DO, E.LUASHADER_DEF_S3O,
    E.LUASHADER_DEF_OBJ, E.LUASHADER_DEF_ASS].Nodup

/-- The type `t` is one of the six shader types that `Execute` has a case
for. -/
@[reducible] def ShaderTypes.Valid (E : ShaderTypes) (t : Int) : Prop :=
  t ∈ [E.LUASHADER_NONE, E.LUASHADER_GL, E.LUASHADER_DEF_3DO, E.LUASHADER_DEF_S3O,
    E.LUASHADER_DEF_OBJ, E.LUASHADER_DEF_ASS]

/-- The teardown of a shader of valid type `t`, in the words of the
specification: nothing for `LUASHADER_NONE`, `glUseProgram(0)` for
`LUASHADER_GL`, and for a `LUASHADER_DEF_*` type the registered reset function,
called with the type and the pass flag, if one is registered. -/
def specReset {Tex : Type} (E : ShaderTypes) (resetFuncs : Int → Bool) (t : Int)
    (deferredPass : Bool) : List (GLCall Tex) :=
  if t = E.LUASHADER_NONE then []
  else if t = E.LUASHADER_GL then [GLCall.glUseProgram 0]
  else if resetFuncs t then [GLCall.resetDrawState t deferredPass]
  else []

/-- The setup of a shader `s` of valid type, in the words of the
specification: nothing for `LUASHADER_NONE`, `glUseProgram(s.openglID)` for
`LUASHADER_GL`, and for a `LUASHADER_DEF_*` type the registered setup function,
called with the type and the pass flag, if one is registered. -/
def specSetup {Tex : Type} (E : ShaderTypes) (setupFuncs : Int → Bool) (s : LuaMatShader)
    (deferredPass : Bool) : List (GLCall Tex) :=
  if s.type = E.LUASHADER_NONE then []
  else if s.type = E.LUASHADER_GL then [GLCall.glUseProgram s.openglID]
  else if setupFuncs s.type then [GLCall.setupDrawState s.type deferredPass]
  else []

/-! ## LuaMaterial::Finalize -/

/-- What `LuaMaterial::Finalize` uses of `LuaMatTexture`, which is declared
outside the translated sources: the member `type` of a texture unit, the
enumerator `LUATEX_NONE` and the member function `Finalize`, which changes
the unit it is called on and nothing else. -/
structure TextureOps (Tex : Type) where
  type : Tex → Int
  LUATEX_NONE : Int
  Finalize : Tex → Tex

namespace LuaMaterial

variable {Tex : Type}

/-- The body of the loop of `Finalize` for the unit `t`. -/
def finalizeUnit (ops : TextureOps Tex) (m : LuaMaterial Tex) (t : Nat) : LuaMaterial Tex :=
  if ops.type (ops.Finalize (m.textures t)) ≠ ops.LUATEX_NONE then
    { m with textures := Function.update m.textures t (ops.Finalize (m.textures t)),
             texCount := (t : Int) + 1 }
  else
    { m with textures := Function.update m.textures t (ops.Finalize (m.textures t)) }

/-- The loop `for (t = 0; t < maxTexUnits; t++)` of `Finalize` after its
first `n` iterations. -/
def finalizeLoop (ops : TextureOps Tex) (m : LuaMaterial Tex) : Nat → LuaMaterial Tex
  | 0 => m
  | n + 1 => finalizeUnit ops (finalizeLoop ops m n) n

/-- `LuaMaterial::Finalize`. `maxTexUnits` is `LuaMatTexture::maxTexUnits`. -/
def Finalize (E : ShaderTypes) (ops : TextureOps Tex) (maxTexUnits : Nat)
    (m : LuaMaterial Tex) : LuaMaterial Tex :=
  finalizeLoop ops
    { m with shaderFwd := m.shaderFwd.Finalize E, shaderDfr := m.shaderDfr.Finalize E }
    maxTexUnits

end LuaMaterial

/-- Texture units that are their own type, 0 being `LUATEX_NONE`, with a
`Finalize` that changes nothing. -/
def intTextureOps : TextureOps Int := ⟨fun x => x, 0, fun x => x⟩

/-- The plain material with 5 in texture unit 1 and `texCount` still 0. -/
def unfinishedMat : LuaMaterial Int :=
  { plainMat with textures := fun t => if t = 1 then 5 else 0,
                  shaderFwd := ⟨3, 9⟩, shaderDfr := ⟨1, 9⟩ }

/-! ## LuaObjectMaterial -/

/-- Modelled from the spec: `LuaObjectMaterial` is declared in
`LuaMaterial.h`, which is not among the sources. These are the members that
the LOD functions touch: `lodCount` and `lastLOD` are unsigned 32-bit, and
`lodMats` is a vector whose element type `Lod` is left open. -/
structure LuaObjectMaterial (Lod : Type) where
  lodCount : Nat
  lastLOD : Nat
  lodMats : List Lod

namespace LuaObjectMaterial

variable {Lod : Type}

/-- The call `v.resize(n)` of `std::vector`: the first `n` elements are kept
and value-initialised elements `dflt` fill up to the size `n`. -/
def resize (dflt : Lod) (v : List Lod) (n : Nat) : List Lod :=
  v.take n ++ List.replicate (n - v.length) dflt

/-- `LuaObjectMaterial::SetLODCount`. The subtraction is done in
`unsigned int`. -/
def SetLODCount (dflt : Lod) (m : LuaObjectMaterial Lod) (count : Nat) :
    Bool × LuaObjectMaterial Lod :=
  (true,
    { lodCount := count,
      lastLOD := toUnsigned ((count : Int) - 1),
      lodMats := resize dflt m.lodMats count })

/-- `LuaObjectMaterial::SetLastLOD`. The subtraction is done in
`unsigned int`. -/
def SetLastLOD (m : LuaObjectMaterial Lod) (lod : Nat) : Bool × LuaObjectMaterial Lod :=
  (true, { m with lastLOD := min lod (toUnsigned ((m.lodCount : Int) - 1)) })

end LuaObjectMaterial

/-! ### Map lemmas -/

namespace StrMap

variable {V : Type}

theorem find_assign_self (m : StrMap V) (k : String) (v : V) :
    find (assign m k v) k = some v := by
  induction m with
  | nil => simp [assign, find]
  | cons e m ih =>
    obtain ⟨k', v'⟩ := e
    by_cases hk : k' = k
    · simp [assign, find, hk]
    · simp [assign, find, hk, ih]

theorem find_erase_self (m : StrMap V) (k : String) : find (erase m k) k = none := by
  induction m with
  | nil => simp [erase, find]
  | cons e m ih =>
    obtain ⟨k', v'⟩ := e
    by_cases hk : k' = k
    · simp [erase, hk, ih]
    · simp [erase, find, hk, ih]

theorem find_erase_ne (m : StrMap V) (k k2 : String) (hne : k2 ≠ k) :
    find (erase m k) k2 = find m k2 := by
  induction m with
  | nil => simp [erase, find]
  | cons e m ih =>
    obtain ⟨k', v'⟩ := e
    by_cases hk : k' = k
    · subst hk
      have h2 : ¬ k' = k2 := fun h => hne h.symm
      simp [erase, find, ih, h2]
    · by_cases hk2 : k' = k2
      · subst hk2
        simp [erase, find, hk]
      · simp [erase, find, hk, hk2, ih]

theorem find_assign_ne (m : StrMap V) (k k2 : String) (v : V) (hne : k2 ≠ k) :
    find (assign m k v) k2 = find m k2 := by
  induction m with
  | nil =>
    have h2 : ¬ k = k2 := fun h => hne h.symm
    simp [assign, find, h2]
  | cons e m ih =>
    obtain ⟨k', v'⟩ := e
    by_cases hk : k' = k
    · subst hk
      have h2 : ¬ k' = k2 := fun h => hne h.symm
      simp [assign, find, h2]
    · by_cases hk2 : k' = k2
      · subst hk2
        simp [assign, find, hk]
      · simp [assign, find, hk, hk2, ih]

end StrMap

namespace CShaderHandler

@[simp] theorem table_setTable_same (h : CShaderHandler) (p : Bool) (t : ProgramTable) :
    (h.setTable p t).table p = t := by
  cases p <;> simp [setTable, table]

@[simp] theorem table_setTable_other (h : CShaderHandler) (p : Bool) (t : ProgramTable) :
    (h.setTable p t).table (!p) = h.table (!p) := by
  cases p <;> simp [setTable, table]

theorem releaseLoop_tables (getHash : Nat → Nat) (poMap : ProgramObjMap) (h : CShaderHandler) :
    (releaseLoop getHash poMap h).nonPersistent = h.nonPersistent ∧
    (releaseLoop getHash poMap h).persistentTable = h.persistentTable ∧
    (releaseLoop getHash poMap h).created = h.created := by
  induction poMap generalizing h with
  | nil => simp [releaseLoop]
  | cons e rest ih =>
    obtain ⟨k, po⟩ := e
    by_cases hpo : po = nullProgramObject
    · simp [releaseLoop, hpo, ih]
    · simp [releaseLoop, hpo, ih]

theorem releaseLoop_table (getHash : Nat → Nat) (poMap : ProgramObjMap) (h : CShaderHandler)
    (p : Bool) : (releaseLoop getHash poMap h).table p = h.table p := by
  obtain ⟨h1, h2, _⟩ := releaseLoop_tables getHash poMap h
  cases p <;> simp [table, h1, h2]

theorem createNew_again (h : CShaderHandler) (c n : String) (p : Bool) (poMap : ProgramObjMap) :
    CreateProgramObject (createNew h c n p poMap).2 c n p = createNew h c n p poMap := by
  have ht : (createNew h c n p poMap).2.table p =
      StrMap.assign (h.table p) c (StrMap.assign poMap n (h.created + 1)) := by
    cases p <;> simp [createNew, setTable, table]
  unfold CreateProgramObject
  rw [ht, StrMap.find_assign_self]
  simp only [StrMap.find_assign_self]
  rfl

end CShaderHandler

/-! ### C1, C2 -/

/-- C1: `CreateProgramObject` is a keyed cache. Whatever the handler state,
class name, program name and persistent flag, repeating the call right after
it returned `po` returns `po` again, creates no program object and leaves
the persistent and the non-persistent table as they were. -/
theorem CreateProgramObject_cached (h : CShaderHandler) (c n : String) (p : Bool) :
    let first := CShaderHandler.CreateProgramObject h c n p
    let second := CShaderHandler.CreateProgramObject first.2 c n p
    second.1 = first.1 ∧
    second.2.created = first.2.created ∧
    second.2.table true = first.2.table true ∧
    second.2.table false = first.2.table false ∧
    second.2 = first.2 := by
  have key : CShaderHandler.CreateProgramObject (CShaderHandler.CreateProgramObject h c n p).2 c n p
      = CShaderHandler.CreateProgramObject h c n p := by
    cases hc : StrMap.find (h.table p) c with
    | none =>
      have e : CShaderHandler.CreateProgramObject h c n p =
          CShaderHandler.createNew h c n p [] := by
        simp [CShaderHandler.CreateProgramObject, hc]
      rw [e]
      exact CShaderHandler.createNew_again h c n p []
    | some poMap =>
      cases hn : StrMap.find poMap n with
      | none =>
        have e : CShaderHandler.CreateProgramObject h c n p =
            CShaderHandler.createNew h c n p poMap := by
          simp [CShaderHandler.CreateProgramObject, hc, hn]
        rw [e]
        exact CShaderHandler.createNew_again h c n p poMap
      | some po =>
        have e : CShaderHandler.CreateProgramObject h c n p = (po, h) := by
          simp [CShaderHandler.CreateProgramObject, hc, hn]
        rw [e]
        exact e
  simp only [key, and_self]

/-- C2: `ReleaseProgramObjects(poClass, persistent)` returns false exactly when
the selected table has no entry for `poClass`, and then the handler is
unchanged; otherwise it returns true, the selected table no longer has an
entry for `poClass`, every other class of that table keeps its entry and the
table of the other flag is unchanged. -/
theorem ReleaseProgramObjects_spec (getHash : Nat → Nat) (h : CShaderHandler) (c : String)
    (p : Bool) :
    let r := CShaderHandler.ReleaseProgramObjects getHash h c p
    (r.1 = false ↔ StrMap.find (h.table p) c = none) ∧
    (r.1 = false → r.2 = h) ∧
    (r.1 = true →
      StrMap.find (r.2.table p) c = none ∧
      (∀ c2, c2 ≠ c → StrMap.find (r.2.table p) c2 = StrMap.find (h.table p) c2) ∧
      r.2.table (!p) = h.table (!p)) := by
  unfold CShaderHandler.ReleaseProgramObjects
  cases hc : StrMap.find (h.table p) c with
  | none => simp
  | some poMap =>
    simp only [CShaderHandler.ReleaseProgramObjectsMap, CShaderHandler.table_setTable_same,
      CShaderHandler.table_setTable_other, CShaderHandler.releaseLoop_table]
    refine ⟨by simp, by simp, fun _ => ⟨StrMap.find_erase_self _ _, ?_, trivial⟩⟩
    intro c2 hne
    rw [StrMap.find_erase_ne _ _ _ hne, StrMap.find_assign_ne _ _ _ _ hne]


/-! ### C9, C5 -/

/-- C9: `LuaMatShader::Compare` ignores `openglID` unless the type is
`LUASHADER_GL`. Two shaders of one type other than `LUASHADER_GL` compare
equal whatever their ids; two `LUASHADER_GL` shaders compare as -1, 0, +1
according to their ids; shaders of different types compare as -1 or +1
according to the order of the type values alone. -/
theorem LuaMatShader_Compare_spec (E : ShaderTypes) (a b : LuaMatShader) :
    (a.type = b.type → a.type ≠ E.LUASHADER_GL → LuaMatShader.Compare E a b = 0) ∧
    (a.type = E.LUASHADER_GL → b.type = E.LUASHADER_GL →
      (a.openglID < b.openglID → LuaMatShader.Compare E a b = -1) ∧
      (a.openglID = b.openglID → LuaMatShader.Compare E a b = 0) ∧
      (b.openglID < a.openglID → LuaMatShader.Compare E a b = 1)) ∧
    (a.type ≠ b.type →
      (a.type < b.type → LuaMatShader.Compare E a b = -1) ∧
      (b.type < a.type → LuaMatShader.Compare E a b = 1) ∧
      (LuaMatShader.Compare E a b = -1 ∨ LuaMatShader.Compare E a b = 1)) := by
  unfold LuaMatShader.Compare
  refine ⟨?_, ?_, ?_⟩
  · intro h1 h2
    simp [h1, h2]
    intro h3
    exact absurd (h1 ▸ h3) h2
  · intro h1 h2
    refine ⟨?_, ?_, ?_⟩
    · intro h3
      have : a.openglID ≠ b.openglID := by omega
      simp [h1, h2, this, h3]
    · intro h3
      simp [h1, h2, h3]
    · intro h3
      have h4 : a.openglID ≠ b.openglID := by omega
      have h5 : ¬ a.openglID < b.openglID := by omega
      simp [h1, h2, h4, h5]
  · intro h1
    refine ⟨?_, ?_, ?_⟩
    · intro h3
      simp [h1, h3]
    · intro h3
      have h5 : ¬ a.type < b.type := by omega
      simp [h1, h5]
    · by_cases h3 : a.type < b.type <;> simp [h1, h3]

/-- A use of C9 at concrete shaders: two shaders of type `LUASHADER_DEF_S3O`
with ids 7 and 9 compare equal, two `LUASHADER_GL` shaders with these ids
compare as -1. -/
theorem LuaMatShader_Compare_spec_witness :
    LuaMatShader.Compare ShaderTypes.inOrder ⟨3, 7⟩ ⟨3, 9⟩ = 0 ∧
    LuaMatShader.Compare ShaderTypes.inOrder ⟨1, 7⟩ ⟨1, 9⟩ = -1 :=
  ⟨(LuaMatShader_Compare_spec ShaderTypes.inOrder ⟨3, 7⟩ ⟨3, 9⟩).1 rfl (by decide),
   ((LuaMatShader_Compare_spec ShaderTypes.inOrder ⟨1, 7⟩ ⟨1, 9⟩).2.1 rfl rfl).1 (by decide)⟩

/-- C5: `LuaMatShader::Execute` issues only what the difference to the
previous shader needs. With equal types, and either a type other than
`LUASHADER_GL` or equal program ids, nothing is issued: no `glUseProgram` and
no call of a setup or reset draw-state function. With both types
`LUASHADER_GL` and different ids exactly one call is issued,
`glUseProgram(s.openglID)`. -/
theorem LuaMatShader_Execute_same_type {Tex : Type} (E : ShaderTypes)
    (setupFuncs resetFuncs : Int → Bool) (s prev : LuaMatShader) (deferredPass : Bool) :
    (s.type = prev.type → (s.type ≠ E.LUASHADER_GL ∨ s.openglID = prev.openglID) →
      (LuaMatShader.Execute E setupFuncs resetFuncs s prev deferredPass : List (GLCall Tex)) = []) ∧
    (s.type = E.LUASHADER_GL → prev.type = E.LUASHADER_GL → s.openglID ≠ prev.openglID →
      (LuaMatShader.Execute E setupFuncs resetFuncs s prev deferredPass : List (GLCall Tex)) =
        [GLCall.glUseProgram s.openglID]) := by
  unfold LuaMatShader.Execute
  refine ⟨?_, ?_⟩
  · intro h1 h2
    rcases h2 with h2 | h2
    · simp [h1, h2]
      intro h3
      exact absurd h3 (h1 ▸ h2)
    · simp [h1, h2]
  · intro h1 h2 h3
    simp [h1, h2, h3]

/-- A use of C5 at concrete shaders: a `LUASHADER_GL` shader with program 4
after one with program 4 issues nothing, after one with program 5 it issues
`glUseProgram(4)` alone. -/
theorem LuaMatShader_Execute_same_type_witness :
    (LuaMatShader.Execute ShaderTypes.inOrder (fun _ => true) (fun _ => true)
      ⟨1, 4⟩ ⟨1, 4⟩ false : List (GLCall Unit)) = [] ∧
    (LuaMatShader.Execute ShaderTypes.inOrder (fun _ => true) (fun _ => true)
      ⟨1, 4⟩ ⟨1, 5⟩ false : List (GLCall Unit)) = [GLCall.glUseProgram 4] :=
  ⟨(LuaMatShader_Execute_same_type ShaderTypes.inOrder (fun _ => true) (fun _ => true)
      ⟨1, 4⟩ ⟨1, 4⟩ false).1 rfl (Or.inr rfl),
   (LuaMatShader_Execute_same_type ShaderTypes.inOrder (fun _ => true) (fun _ => true)
      ⟨1, 4⟩ ⟨1, 5⟩ false).2 rfl rfl (by decide)⟩


/-! ### Comparator algebra -/

theorem Tri.lex {x y z x2 y2 z2 : Int} (h1 : Tri x y z) (h2 : Tri x2 y2 z2) :
    Tri (lexv x x2) (lexv y y2) (lexv z z2) := by
  unfold Tri lexv at *
  split_ifs <;> omega

theorem lexv_neg {x y x2 y2 : Int} (h1 : y = -x) (h2 : y2 = -x2) :
    lexv y y2 = - lexv x x2 := by
  unfold lexv
  split_ifs <;> omega

theorem lexv_eq_zero {x y : Int} (h : lexv x y = 0) : x = 0 := by
  unfold lexv at h
  split_ifs at h <;> omega

theorem lexv_assoc (x y z : Int) : lexv x (lexv y z) = lexv (lexv x y) z := by
  unfold lexv
  split_ifs <;> omega

theorem tri_cmpI (x y z : Int) : Tri (cmpI x y) (cmpI y z) (cmpI x z) := by
  unfold Tri cmpI
  split_ifs <;> omega

theorem cmpI_neg (x y : Int) : cmpI y x = - cmpI x y := by
  unfold cmpI
  split_ifs <;> omega

theorem tri_cmpN (x y z : Nat) : Tri (cmpN x y) (cmpN y z) (cmpN x z) := by
  unfold Tri cmpN
  split_ifs <;> omega

theorem cmpN_neg (x y : Nat) : cmpN y x = - cmpN x y := by
  unfold cmpN
  split_ifs <;> omega

theorem tri_cmpB (x y z : Bool) : Tri (cmpB x y) (cmpB y z) (cmpB x z) := by
  cases x <;> cases y <;> cases z <;> simp [Tri, cmpB]

theorem cmpB_neg (x y : Bool) : cmpB y x = - cmpB x y := by
  cases x <;> cases y <;> simp [cmpB]

theorem lexv_cmpI (x y r : Int) :
    lexv (cmpI x y) r = if x ≠ y then (if x < y then -1 else 1) else r := by
  unfold lexv cmpI
  split_ifs <;> simp_all

theorem lexv_cmpN (x y : Nat) (r : Int) :
    lexv (cmpN x y) r = if x ≠ y then (if x < y then -1 else 1) else r := by
  unfold lexv cmpN
  split_ifs <;> simp_all

theorem lexv_cmpB (x y : Bool) (r : Int) :
    lexv (cmpB x y) r = if x ≠ y then (if x then -1 else 1) else r := by
  unfold lexv cmpB
  split_ifs <;> simp_all

theorem tri_of_comparator {α : Type} {f : α → α → Int} (ha : Antisymmetric3 f)
    (ht : Transitive3 f) (a b c : α) : Tri (f a b) (f b c) (f a c) := by
  refine ⟨ht a b c, ?_⟩
  intro h1 h2
  have h3 := ht c b a
  rw [ha b c, ha a b, ha a c] at h3
  omega

theorem seqCmp_neg {α : Type} {f : α → α → Int} (ha : Antisymmetric3 f) :
    ∀ xs ys : List α, seqCmp f ys xs = - seqCmp f xs ys
  | [], [] => by simp [seqCmp]
  | [], _ :: _ => by simp [seqCmp]
  | _ :: _, [] => by simp [seqCmp]
  | x :: xs, y :: ys => by
    simp only [seqCmp]
    exact lexv_neg (ha x y) (seqCmp_neg ha xs ys)

theorem tri_seqCmp {α : Type} {f : α → α → Int} (ha : Antisymmetric3 f) (ht : Transitive3 f) :
    ∀ xs ys zs : List α, Tri (seqCmp f xs ys) (seqCmp f ys zs) (seqCmp f xs zs)
  | [], [], [] => by simp [seqCmp, Tri]
  | [], [], _ :: _ => by simp [seqCmp, Tri]
  | [], _ :: _, [] => by simp [seqCmp, Tri]
  | [], _ :: _, _ :: _ => by
    simp only [seqCmp, Tri]
    omega
  | _ :: _, [], [] => by simp [seqCmp, Tri]
  | _ :: _, [], _ :: _ => by
    simp only [seqCmp, Tri]
    omega
  | _ :: _, _ :: _, [] => by
    simp only [seqCmp, Tri]
    omega
  | x :: xs, y :: ys, z :: zs => by
    simp only [seqCmp]
    exact Tri.lex (tri_of_comparator ha ht x y z) (tri_seqCmp ha ht xs ys zs)

theorem tri_shaderCompare (E : ShaderTypes) (a b c : LuaMatShader) :
    Tri (LuaMatShader.Compare E a b) (LuaMatShader.Compare E b c) (LuaMatShader.Compare E a c) := by
  unfold Tri LuaMatShader.Compare
  split_ifs <;> omega

theorem shaderCompare_neg (E : ShaderTypes) (a b : LuaMatShader) :
    LuaMatShader.Compare E b a = - LuaMatShader.Compare E a b := by
  unfold LuaMatShader.Compare
  split_ifs <;> omega


/-! ### The texture block of `Compare` as a sequence comparison -/

theorem compareTextures_succ {Tex : Type} (f : Tex → Tex → Int) (a b : Nat → Tex) (t n : Nat) :
    LuaMaterial.compareTextures f a b t (n + 1) =
      lexv (f (a t) (b t)) (LuaMaterial.compareTextures f a b (t + 1) n) := rfl

theorem compareTextures_seq {Tex : Type} (f : Tex → Tex → Int) (a b : Nat → Tex) :
    ∀ (n m t : Nat),
      lexv (LuaMaterial.compareTextures f a b t (min n m)) (cmpN n m) =
        seqCmp f ((List.range' t n).map a) ((List.range' t m).map b)
  | 0, 0, t => by simp [LuaMaterial.compareTextures, lexv, cmpN, seqCmp]
  | 0, m + 1, t => by
    simp [LuaMaterial.compareTextures, lexv, cmpN, seqCmp, List.range'_succ]
  | n + 1, 0, t => by
    simp [LuaMaterial.compareTextures, lexv, cmpN, seqCmp, List.range'_succ]
  | n + 1, m + 1, t => by
    have hc : cmpN (n + 1) (m + 1) = cmpN n m := by simp [cmpN]
    rw [Nat.succ_min_succ, compareTextures_succ, ← lexv_assoc, hc,
      compareTextures_seq f a b n m (t + 1)]
    simp [List.range'_succ, seqCmp]

theorem texBlock_eq {Tex : Type} (f : Tex → Tex → Int) (a b : LuaMaterial Tex) :
    lexv (LuaMaterial.compareTextures f a.textures b.textures 0
        (min a.texCount b.texCount).toNat) (cmpI a.texCount b.texCount) =
      texKeyCmp f a b := by
  unfold texKeyCmp LuaMaterial.usedTextures
  by_cases ha : 0 ≤ a.texCount
  · by_cases hb : 0 ≤ b.texCount
    · obtain ⟨n, hn⟩ := Int.eq_ofNat_of_zero_le ha
      obtain ⟨m, hm⟩ := Int.eq_ofNat_of_zero_le hb
      have h1 : (min a.texCount b.texCount).toNat = min n m := by
        rw [hn, hm]; omega
      have h2 : cmpI a.texCount b.texCount = cmpN n m := by
        rw [hn, hm]; unfold cmpI cmpN; split_ifs <;> omega
      have h3 : cmpI (min a.texCount 0) (min b.texCount 0) = 0 := by
        unfold cmpI; split_ifs <;> omega
      have h4 : a.texCount.toNat = n := by rw [hn]; omega
      have h5 : b.texCount.toNat = m := by rw [hm]; omega
      rw [h1, h2, h3, h4, h5, compareTextures_seq]
      simp [lexv]
    · have h1 : (min a.texCount b.texCount).toNat = 0 := by omega
      have h5 : b.texCount.toNat = 0 := by omega
      have h3 : cmpI (min a.texCount 0) (min b.texCount 0) = 1 := by
        unfold cmpI; split_ifs <;> omega
      have h2 : cmpI a.texCount b.texCount = 1 := by
        unfold cmpI; split_ifs <;> omega
      rw [h1, h2, h3, h5]
      simp [lexv, LuaMaterial.compareTextures]
  · have h1 : (min a.texCount b.texCount).toNat = 0 := by omega
    have h4 : a.texCount.toNat = 0 := by omega
    rw [h1, h4]
    by_cases hb : 0 ≤ b.texCount
    · have h3 : cmpI (min a.texCount 0) (min b.texCount 0) = -1 := by
        unfold cmpI; split_ifs <;> omega
      have h2 : cmpI a.texCount b.texCount = -1 := by
        unfold cmpI; split_ifs <;> omega
      rw [h2, h3]
      simp [lexv, LuaMaterial.compareTextures]
    · have h5 : b.texCount.toNat = 0 := by omega
      have h3 : cmpI (min a.texCount 0) (min b.texCount 0) = cmpI a.texCount b.texCount := by
        unfold cmpI; split_ifs <;> omega
      rw [h3, h5]
      simp only [lexv, LuaMaterial.compareTextures, seqCmp, List.range'_zero, List.map_nil]
      split_ifs <;> omega

theorem tri_texKeyCmp {Tex : Type} {f : Tex → Tex → Int} (ha : Antisymmetric3 f)
    (ht : Transitive3 f) (a b c : LuaMaterial Tex) :
    Tri (texKeyCmp f a b) (texKeyCmp f b c) (texKeyCmp f a c) :=
  Tri.lex (tri_cmpI _ _ _) (tri_seqCmp ha ht _ _ _)

theorem texKeyCmp_neg {Tex : Type} {f : Tex → Tex → Int} (ha : Antisymmetric3 f)
    (a b : LuaMaterial Tex) : texKeyCmp f b a = - texKeyCmp f a b :=
  lexv_neg (cmpI_neg _ _) (seqCmp_neg ha _ _)

/-- `Compare` is the lexicographic combination, in the order of the source,
of the comparisons of the single members. -/
theorem Compare_eq_lex {Tex : Type} (E : ShaderTypes) (f : Tex → Tex → Int)
    (a b : LuaMaterial Tex) :
    LuaMaterial.Compare E f a b =
      lexv (cmpI a.type b.type) (lexv (cmpI a.order b.order)
      (lexv (LuaMatShader.Compare E a.shaderFwd b.shaderFwd)
      (lexv (LuaMatShader.Compare E a.shaderDfr b.shaderDfr)
      (lexv (texKeyCmp f a b)
      (lexv (cmpN a.preList b.preList) (lexv (cmpN a.postList b.postList)
      (lexv (cmpB a.useCamera b.useCamera) (lexv (cmpN a.cullingMode b.cullingMode)
      (lexv (cmpI a.viewMatrixLoc b.viewMatrixLoc) (lexv (cmpI a.projMatrixLoc b.projMatrixLoc)
      (lexv (cmpI a.viprMatrixLoc b.viprMatrixLoc)
      (lexv (cmpI a.viewMatrixInvLoc b.viewMatrixInvLoc)
      (lexv (cmpI a.projMatrixInvLoc b.projMatrixInvLoc)
      (lexv (cmpI a.viprMatrixInvLoc b.viprMatrixInvLoc)
      (lexv (cmpI a.cameraPosLoc b.cameraPosLoc) (lexv (cmpI a.cameraDirLoc b.cameraDirLoc)
      (lexv (cmpI a.sunDirLoc b.sunDirLoc) (lexv (cmpI a.shadowMatrixLoc b.shadowMatrixLoc)
      (lexv (cmpI a.shadowParamsLoc b.shadowParamsLoc) 0))))))))))))))))))) := by
  rw [← texBlock_eq, ← lexv_assoc]
  simp only [lexv_cmpI, lexv_cmpN, lexv_cmpB]
  rfl

theorem tri_Compare {Tex : Type} (E : ShaderTypes) {f : Tex → Tex → Int}
    (ha : Antisymmetric3 f) (ht : Transitive3 f) (a b c : LuaMaterial Tex) :
    Tri (LuaMaterial.Compare E f a b) (LuaMaterial.Compare E f b c)
      (LuaMaterial.Compare E f a c) := by
  have h0 : Tri 0 0 0 := by simp [Tri]
  rw [Compare_eq_lex, Compare_eq_lex, Compare_eq_lex]
  exact Tri.lex (tri_cmpI _ _ _) <| Tri.lex (tri_cmpI _ _ _) <|
    Tri.lex (tri_shaderCompare E _ _ _) <| Tri.lex (tri_shaderCompare E _ _ _) <|
    Tri.lex (tri_texKeyCmp ha ht a b c) <|
    Tri.lex (tri_cmpN _ _ _) <| Tri.lex (tri_cmpN _ _ _) <| Tri.lex (tri_cmpB _ _ _) <|
    Tri.lex (tri_cmpN _ _ _) <|
    Tri.lex (tri_cmpI _ _ _) <| Tri.lex (tri_cmpI _ _ _) <| Tri.lex (tri_cmpI _ _ _) <|
    Tri.lex (tri_cmpI _ _ _) <| Tri.lex (tri_cmpI _ _ _) <| Tri.lex (tri_cmpI _ _ _) <|
    Tri.lex (tri_cmpI _ _ _) <| Tri.lex (tri_cmpI _ _ _) <| Tri.lex (tri_cmpI _ _ _) <|
    Tri.lex (tri_cmpI _ _ _) <| Tri.lex (tri_cmpI _ _ _) h0

theorem Compare_neg {Tex : Type} (E : ShaderTypes) {f : Tex → Tex → Int}
    (ha : Antisymmetric3 f) (a b : LuaMaterial Tex) :
    LuaMaterial.Compare E f b a = - LuaMaterial.Compare E f a b := by
  have h0 : (0 : Int) = -0 := by simp
  rw [Compare_eq_lex, Compare_eq_lex]
  exact lexv_neg (cmpI_neg _ _) <| lexv_neg (cmpI_neg _ _) <|
    lexv_neg (shaderCompare_neg E _ _) <| lexv_neg (shaderCompare_neg E _ _) <|
    lexv_neg (texKeyCmp_neg ha a b) <|
    lexv_neg (cmpN_neg _ _) <| lexv_neg (cmpN_neg _ _) <| lexv_neg (cmpB_neg _ _) <|
    lexv_neg (cmpN_neg _ _) <|
    lexv_neg (cmpI_neg _ _) <| lexv_neg (cmpI_neg _ _) <| lexv_neg (cmpI_neg _ _) <|
    lexv_neg (cmpI_neg _ _) <| lexv_neg (cmpI_neg _ _) <| lexv_neg (cmpI_neg _ _) <|
    lexv_neg (cmpI_neg _ _) <| lexv_neg (cmpI_neg _ _) <| lexv_neg (cmpI_neg _ _) <|
    lexv_neg (cmpI_neg _ _) <| lexv_neg (cmpI_neg _ _) h0

theorem Compare_self {Tex : Type} (E : ShaderTypes) {f : Tex → Tex → Int}
    (ha : Antisymmetric3 f) (a : LuaMaterial Tex) : LuaMaterial.Compare E f a a = 0 := by
  have h := Compare_neg E ha a a
  omega


/-! ### C8 -/

/-- C8: `LuaMaterial::Compare` is a valid ordering for the bin set. If
`LuaMatTexture::Compare` is an antisymmetric and transitive three-way
comparator, then for all materials `a`, `b`, `c`, whatever their `texCount`:
`Compare(a, a) = 0`, `Compare(b, a) = -Compare(a, b)`, and `Compare(a, b) ≤ 0`
with `Compare(b, c) ≤ 0` gives `Compare(a, c) ≤ 0`, strictly if either is
strict. So `Compare < 0` is a strict weak ordering: it is irreflexive and
transitive, and comparing equal is transitive. -/
theorem LuaMaterial_Compare_ordering {Tex : Type} (E : ShaderTypes) (f : Tex → Tex → Int)
    (ha : Antisymmetric3 f) (ht : Transitive3 f) (a b c : LuaMaterial Tex) :
    LuaMaterial.Compare E f a a = 0 ∧
    LuaMaterial.Compare E f b a = - LuaMaterial.Compare E f a b ∧
    (LuaMaterial.Compare E f a b ≤ 0 → LuaMaterial.Compare E f b c ≤ 0 →
      LuaMaterial.Compare E f a c ≤ 0 ∧
      (LuaMaterial.Compare E f a b < 0 ∨ LuaMaterial.Compare E f b c < 0 →
        LuaMaterial.Compare E f a c < 0)) ∧
    ¬ LuaMaterial.Compare E f a a < 0 ∧
    (LuaMaterial.Compare E f a b < 0 → LuaMaterial.Compare E f b c < 0 →
      LuaMaterial.Compare E f a c < 0) ∧
    (LuaMaterial.Compare E f a b = 0 → LuaMaterial.Compare E f b c = 0 →
      LuaMaterial.Compare E f a c = 0) := by
  have h1 := Compare_self E ha a
  have h2 := Compare_neg E ha a b
  have h3 := tri_Compare E ha ht a b c
  unfold Tri at h3
  refine ⟨h1, h2, h3.1, by omega, ?_, ?_⟩
  · intro h4 h5
    omega
  · intro h4 h5
    omega

/-- A use of C8 with integer texture units compared by `cmpI`, at three
materials that use 1, 0 and 2 texture units: the plain material comes before
the one with one unit, which comes before the one with two. -/
theorem LuaMaterial_Compare_ordering_witness :
    Antisymmetric3 cmpI ∧ Transitive3 cmpI ∧
    LuaMaterial.Compare ShaderTypes.inOrder cmpI plainMat oneTexMat = -1 ∧
    LuaMaterial.Compare ShaderTypes.inOrder cmpI oneTexMat twoTexMat = -1 ∧
    LuaMaterial.Compare ShaderTypes.inOrder cmpI plainMat twoTexMat < 0 :=
  ⟨fun a b => cmpI_neg a b, fun a b c => (tri_cmpI a b c).1, by decide, by decide,
    ((LuaMaterial_Compare_ordering ShaderTypes.inOrder cmpI (fun a b => cmpI_neg a b)
      (fun a b c => (tri_cmpI a b c).1) plainMat oneTexMat twoTexMat).2.2.1
      (by decide) (by decide)).2 (Or.inl (by decide))⟩

/-! ### C6 -/

theorem textureCalls_eq_nil {Tex : Type} (m prev : LuaMaterial Tex) (n : Nat) :
    LuaMaterial.textureCalls m prev n = [] ↔ n = 0 := by
  cases n <;> simp [LuaMaterial.textureCalls]

theorem shaderExecute_self {Tex : Type} (E : ShaderTypes) (setupFuncs resetFuncs : Int → Bool)
    (s : LuaMatShader) (deferredPass : Bool) :
    (LuaMatShader.Execute E setupFuncs resetFuncs s s deferredPass : List (GLCall Tex)) = [] := by
  simp [LuaMatShader.Execute]

/-- C6 fails as stated: executing `listMat` with itself as the previous
material issues six calls, both display lists, the view-matrix upload and the
rebinding of texture unit 0. -/
theorem LuaMaterial_Execute_self_issues_calls :
    LuaMaterial.Execute ShaderTypes.inOrder (fun _ => false) (fun _ => false)
      listMat listMat false =
    [GLCall.glCallList 3, GLCall.glCallList 2,
     GLCall.glUniformMatrix4fv 0 "camera->GetViewMatrix()",
     GLCall.glActiveTexture 0, GLCall.texUnbind 5, GLCall.texBind 5] := by
  decide

/-- C6, amended: executing a material with itself as the previous material
issues no program switch, no draw-state setup or reset, no matrix-stack call
and no culling call. What is left is the state that `Execute` does not diff:
`glCallList` for each non-zero list, one upload for each uniform location
that is not negative, and `glActiveTexture`, `Unbind`, `Bind` for each unit
below `texCount`. Nothing at all is issued exactly when both lists are 0,
every uniform location is negative and `texCount ≤ 0`. -/
theorem LuaMaterial_Execute_self {Tex : Type} (E : ShaderTypes)
    (setupFuncs resetFuncs : Int → Bool) (m : LuaMaterial Tex) (deferredPass : Bool) :
    LuaMaterial.Execute E setupFuncs resetFuncs m m deferredPass =
      (if m.postList ≠ 0 then [GLCall.glCallList m.postList] else []) ++
      (if m.preList ≠ 0 then [GLCall.glCallList m.preList] else []) ++
      LuaMaterial.uniformCalls m ++
      LuaMaterial.textureCalls m m m.texCount.toNat ∧
    (LuaMaterial.Execute E setupFuncs resetFuncs m m deferredPass = [] ↔
      m.postList = 0 ∧ m.preList = 0 ∧
      (m.viewMatrixLoc < 0 ∧ m.projMatrixLoc < 0 ∧ m.viprMatrixLoc < 0 ∧
       m.viewMatrixInvLoc < 0 ∧ m.projMatrixInvLoc < 0 ∧ m.viprMatrixInvLoc < 0 ∧
       m.cameraPosLoc < 0 ∧ m.cameraDirLoc < 0 ∧ m.sunDirLoc < 0 ∧
       m.shadowMatrixLoc < 0 ∧ m.shadowParamsLoc < 0) ∧
      m.texCount ≤ 0) := by
  have hE : LuaMaterial.Execute E setupFuncs resetFuncs m m deferredPass =
      (if m.postList ≠ 0 then [GLCall.glCallList m.postList] else []) ++
      (if m.preList ≠ 0 then [GLCall.glCallList m.preList] else []) ++
      LuaMaterial.uniformCalls m ++
      LuaMaterial.textureCalls m m m.texCount.toNat := by
    simp [LuaMaterial.Execute, shaderExecute_self, LuaMaterial.cameraCalls,
      LuaMaterial.cullingCalls]
  refine ⟨hE, ?_⟩
  rw [hE]
  simp only [List.append_eq_nil, textureCalls_eq_nil, LuaMaterial.uniformCalls,
    LuaMaterial.uniformCall]
  constructor
  · rintro ⟨⟨⟨h1, h2⟩, h3⟩, h4⟩
    simp only [ite_eq_right_iff, List.cons_ne_nil, imp_false, not_le, ne_eq, not_not] at h1 h2 h3
    refine ⟨h1, h2, ?_, by omega⟩
    tauto
  · rintro ⟨h1, h2, h3, h4⟩
    simp only [ite_eq_right_iff, List.cons_ne_nil, imp_false, not_le, ne_eq, not_not]
    refine ⟨⟨⟨h1, h2⟩, ?_⟩, by omega⟩
    tauto


/-! ### The bin set -/

section BinSet

variable {Tex : Type} (E : ShaderTypes) (f : Tex → Tex → Int)

theorem matEquiv_iff (ha : Antisymmetric3 f) (x y : LuaMaterial Tex) :
    LuaMatHandler.matEquiv E f x y = true ↔ LuaMaterial.Compare E f x y = 0 := by
  have h := Compare_neg E ha x y
  unfold LuaMatHandler.matEquiv LuaMatHandler.matLess
  rw [h]
  generalize LuaMaterial.Compare E f x y = c
  by_cases h1 : c < 0 <;> by_cases h2 : -c < 0 <;> simp [h1, h2] <;> omega

theorem Compare_eq_zero_type {a b : LuaMaterial Tex}
    (h : LuaMaterial.Compare E f a b = 0) : a.type = b.type := by
  rw [Compare_eq_lex] at h
  have h1 := lexv_eq_zero h
  unfold cmpI at h1
  split_ifs at h1 <;> omega

theorem matEquiv_congr_key (ha : Antisymmetric3 f) (ht : Transitive3 f)
    {a b : LuaMaterial Tex} (hab : LuaMaterial.Compare E f a b = 0) (x : LuaMaterial Tex) :
    LuaMatHandler.matEquiv E f x a = LuaMatHandler.matEquiv E f x b := by
  have h1 := tri_Compare E ha ht x a b
  have h2 := tri_Compare E ha ht x b a
  have h3 := Compare_neg E ha a b
  have e : LuaMatHandler.matEquiv E f x a = true ↔ LuaMatHandler.matEquiv E f x b = true := by
    rw [matEquiv_iff E f ha, matEquiv_iff E f ha]
    unfold Tri at h1 h2
    omega
  cases h4 : LuaMatHandler.matEquiv E f x a <;> cases h5 : LuaMatHandler.matEquiv E f x b <;>
    simp_all

theorem setFind_congr_key (heap : Nat → Option (LuaMatBin Tex)) (l : List Nat)
    {a b : LuaMaterial Tex}
    (h : ∀ x, LuaMatHandler.matEquiv E f x a = LuaMatHandler.matEquiv E f x b) :
    LuaMatHandler.setFind E f heap l a = LuaMatHandler.setFind E f heap l b := by
  induction l with
  | nil => rfl
  | cons e rest ih =>
    simp only [LuaMatHandler.setFind]
    cases heap e with
    | none => exact ih
    | some bn => simp only [h bn.mat, ih]

theorem setFind_congr_heap (heap heap2 : Nat → Option (LuaMatBin Tex)) (l : List Nat)
    (m : LuaMaterial Tex)
    (h : ∀ e ∈ l, (heap e).map LuaMatBin.mat = (heap2 e).map LuaMatBin.mat) :
    LuaMatHandler.setFind E f heap l m = LuaMatHandler.setFind E f heap2 l m := by
  induction l with
  | nil => rfl
  | cons e rest ih =>
    have he := h e (List.mem_cons_self _ _)
    have ih2 := ih (fun x hx => h x (List.mem_cons_of_mem _ hx))
    simp only [LuaMatHandler.setFind]
    cases h1 : heap e with
    | none =>
      cases h2 : heap2 e with
      | none => exact ih2
      | some b2 => simp [h1, h2] at he
    | some b1 =>
      cases h2 : heap2 e with
      | none => simp [h1, h2] at he
      | some b2 =>
        simp only [h1, h2, Option.map_some', Option.some.injEq] at he
        simp only [he, ih2]

theorem setFind_some {heap : Nat → Option (LuaMatBin Tex)} {l : List Nat}
    {m : LuaMaterial Tex} {e : Nat} (h : LuaMatHandler.setFind E f heap l m = some e) :
    e ∈ l ∧ ∃ b, heap e = some b ∧ LuaMatHandler.matEquiv E f b.mat m = true := by
  induction l with
  | nil => simp [LuaMatHandler.setFind] at h
  | cons x rest ih =>
    simp only [LuaMatHandler.setFind] at h
    cases hx : heap x with
    | none =>
      rw [hx] at h
      obtain ⟨h1, h2⟩ := ih h
      exact ⟨List.mem_cons_of_mem _ h1, h2⟩
    | some bx =>
      rw [hx] at h
      by_cases heq : LuaMatHandler.matEquiv E f bx.mat m = true
      · simp only [heq, if_true, Option.some.injEq] at h
        subst h
        exact ⟨List.mem_cons_self _ _, bx, hx, heq⟩
      · simp only [heq] at h
        obtain ⟨h1, h2⟩ := ih h
        exact ⟨List.mem_cons_of_mem _ h1, h2⟩

theorem setFind_none {heap : Nat → Option (LuaMatBin Tex)} {l : List Nat}
    {m : LuaMaterial Tex} (h : LuaMatHandler.setFind E f heap l m = none) :
    ∀ e ∈ l, ∀ b, heap e = some b → LuaMatHandler.matEquiv E f b.mat m = false := by
  induction l with
  | nil => simp
  | cons x rest ih =>
    simp only [LuaMatHandler.setFind] at h
    intro e he b hb
    cases hx : heap x with
    | none =>
      rw [hx] at h
      rcases List.mem_cons.mp he with h1 | h1
      · subst h1
        rw [hx] at hb
        cases hb
      · exact ih h e h1 b hb
    | some bx =>
      rw [hx] at h
      by_cases heq : LuaMatHandler.matEquiv E f bx.mat m = true
      · simp [heq] at h
      · simp only [heq] at h
        rcases List.mem_cons.mp he with h1 | h1
        · subst h1
          rw [hx] at hb
          cases hb
          simpa using heq
        · exact ih h e h1 b hb

theorem setFind_unique {heap : Nat → Option (LuaMatBin Tex)} {l : List Nat}
    {m : LuaMaterial Tex} {n : Nat} {bn : LuaMatBin Tex} (hn : n ∈ l) (hbn : heap n = some bn)
    (heq : LuaMatHandler.matEquiv E f bn.mat m = true)
    (hrest : ∀ e ∈ l, e ≠ n → ∀ b, heap e = some b →
      LuaMatHandler.matEquiv E f b.mat m = false) :
    LuaMatHandler.setFind E f heap l m = some n := by
  induction l with
  | nil => cases hn
  | cons x rest ih =>
    simp only [LuaMatHandler.setFind]
    by_cases hxn : x = n
    · subst hxn
      simp [hbn, heq]
    · have hn2 : n ∈ rest := by
        rcases List.mem_cons.mp hn with h1 | h1
        · exact absurd h1.symm hxn
        · exact h1
      have ih2 := ih hn2 (fun e he => hrest e (List.mem_cons_of_mem _ he))
      cases hx : heap x with
      | none => exact ih2
      | some bx =>
        have := hrest x (List.mem_cons_self _ _) hxn bx hx
        simp [this, ih2]

theorem mem_insertSorted (heap : Nat → Option (LuaMatBin Tex)) (m : LuaMaterial Tex)
    (bin : Nat) (l : List Nat) (x : Nat) :
    x ∈ LuaMatHandler.insertSorted E f heap m bin l ↔ x = bin ∨ x ∈ l := by
  induction l with
  | nil => simp [LuaMatHandler.insertSorted]
  | cons e rest ih =>
    simp only [LuaMatHandler.insertSorted]
    cases heap e with
    | none =>
      simp only [List.mem_cons, ih]
      tauto
    | some b =>
      by_cases hl : LuaMatHandler.matLess E f m b.mat = true
      · simp [hl]
      · simp only [hl, List.mem_cons, ih]
        simp only [Bool.false_eq_true, if_false, List.mem_cons, ih]
        tauto

end BinSet


/-! ### GetRef -/

section GetRefLemmas

variable {Tex : Type} (E : ShaderTypes) (f : Tex → Tex → Int)

@[simp] theorem Ref_binTypes (h : LuaMatHandler Tex) (e : Nat) :
    (h.Ref e).binTypes = h.binTypes := by
  unfold LuaMatHandler.Ref
  cases h.heap e <;> rfl

@[simp] theorem Ref_allocated (h : LuaMatHandler Tex) (e : Nat) :
    (h.Ref e).allocated = h.allocated := by
  unfold LuaMatHandler.Ref
  cases h.heap e <;> rfl

theorem Ref_heap (h : LuaMatHandler Tex) (e x : Nat) :
    (h.Ref e).heap x =
      if x = e then (h.heap e).map (fun b => { b with refCount := b.refCount + 1 })
      else h.heap x := by
  unfold LuaMatHandler.Ref
  cases he : h.heap e with
  | none =>
    by_cases hx : x = e
    · simp [hx, he]
    · simp [hx]
  | some b =>
    by_cases hx : x = e
    · simp [hx, Function.update]
    · simp [hx, Function.update]

theorem Ref_heap_mat (h : LuaMatHandler Tex) (e x : Nat) :
    ((h.Ref e).heap x).map LuaMatBin.mat = (h.heap x).map LuaMatBin.mat := by
  rw [Ref_heap]
  by_cases hx : x = e
  · subst hx
    cases h.heap x <;> simp
  · simp [hx]

theorem Ref_heap_isSome (h : LuaMatHandler Tex) (e x : Nat) :
    ((h.Ref e).heap x).isSome = (h.heap x).isSome := by
  rw [Ref_heap]
  by_cases hx : x = e
  · subst hx
    cases h.heap x <;> simp
  · simp [hx]

theorem GetRef_found (typeCount : Int) (h : LuaMatHandler Tex) (m : LuaMaterial Tex) (e : Nat)
    (hty : 0 ≤ m.type ∧ m.type < typeCount)
    (hf : LuaMatHandler.setFind E f h.heap (h.binTypes m.type) m = some e) :
    LuaMatHandler.GetRef E f typeCount h m = (some e, h.Ref e) := by
  have hc : ¬ (m.type < 0 ∨ m.type ≥ typeCount) := by omega
  simp only [LuaMatHandler.GetRef, hc, if_false, hf, LuaMatRef.ofBin, LuaMatBin.ofMaterial]

/-- The handler in which `GetRef` has made and inserted a bin for `m`, before
the returned reference counts it. -/
theorem GetRef_new (typeCount : Int) (h : LuaMatHandler Tex) (m : LuaMaterial Tex)
    (hty : 0 ≤ m.type ∧ m.type < typeCount)
    (hf : LuaMatHandler.setFind E f h.heap (h.binTypes m.type) m = none) :
    LuaMatHandler.GetRef E f typeCount h m =
      (some (h.allocated + 1),
        LuaMatHandler.Ref
          { binTypes := Function.update h.binTypes m.type
              (LuaMatHandler.setInsert E f
                (Function.update h.heap (h.allocated + 1) (some ⟨m, 0⟩))
                (h.binTypes m.type) m (h.allocated + 1)),
            heap := Function.update h.heap (h.allocated + 1) (some ⟨m, 0⟩),
            allocated := h.allocated + 1 }
          (h.allocated + 1)) := by
  have hc : ¬ (m.type < 0 ∨ m.type ≥ typeCount) := by omega
  simp only [LuaMatHandler.GetRef, hc, if_false, hf, LuaMatRef.ofBin, LuaMatBin.ofMaterial]

theorem mem_setInsert_of_none (heap : Nat → Option (LuaMatBin Tex))
    (l : List Nat) (m : LuaMaterial Tex) (n : Nat) (c : Int)
    (hf : LuaMatHandler.setFind E f heap l m = none) :
    n ∈ LuaMatHandler.setInsert E f (Function.update heap n (some ⟨m, c⟩)) l m n ∧
    ∀ x, x ∈ LuaMatHandler.setInsert E f (Function.update heap n (some ⟨m, c⟩)) l m n →
      x = n ∨ x ∈ l := by
  unfold LuaMatHandler.setInsert
  cases h1 : LuaMatHandler.setFind E f (Function.update heap n (some ⟨m, c⟩)) l m with
  | none =>
    exact ⟨(mem_insertSorted E f _ m n l n).mpr (Or.inl rfl),
      fun x hx => (mem_insertSorted E f _ m n l x).mp hx⟩
  | some x =>
    obtain ⟨hx, b, hb, heq⟩ := setFind_some E f h1
    have hxn : x = n := by
      by_contra hne
      rw [Function.update_noteq hne] at hb
      have := setFind_none E f hf x hx b hb
      rw [this] at heq
      cases heq
    subst hxn
    exact ⟨hx, fun y hy => Or.inr hy⟩

theorem GetRef_again (typeCount : Int) (ha : Antisymmetric3 f) (ht : Transitive3 f)
    (h : LuaMatHandler Tex) (a b : LuaMaterial Tex)
    (hty : 0 ≤ a.type ∧ a.type < typeCount)
    (hab : LuaMaterial.Compare E f a b = 0) :
    ∃ bin, (LuaMatHandler.GetRef E f typeCount h a).1 = some bin ∧
      LuaMatHandler.GetRef E f typeCount (LuaMatHandler.GetRef E f typeCount h a).2 b =
        (some bin, (LuaMatHandler.GetRef E f typeCount h a).2.Ref bin) := by
  have htype := Compare_eq_zero_type E f hab
  have htyb : 0 ≤ b.type ∧ b.type < typeCount := by omega
  have hkey := matEquiv_congr_key E f ha ht hab
  cases hf : LuaMatHandler.setFind E f h.heap (h.binTypes a.type) a with
  | some e =>
    rw [GetRef_found E f typeCount h a e hty hf]
    refine ⟨e, rfl, ?_⟩
    apply GetRef_found E f typeCount _ b e htyb
    rw [Ref_binTypes, ← htype, ← setFind_congr_key E f _ _ hkey,
      setFind_congr_heap E f _ h.heap _ a (fun x _ => Ref_heap_mat h e x)]
    exact hf
  | none =>
    rw [GetRef_new E f typeCount h a hty hf]
    refine ⟨h.allocated + 1, rfl, ?_⟩
    apply GetRef_found E f typeCount _ b _ htyb
    obtain ⟨hmem, hsub⟩ := mem_setInsert_of_none E f h.heap (h.binTypes a.type) a
      (h.allocated + 1) 0 hf
    rw [Ref_binTypes, ← htype]
    simp only [Function.update_same]
    have hself : LuaMatHandler.matEquiv E f a b = true := (matEquiv_iff E f ha a b).mpr hab
    have hbn : (LuaMatHandler.Ref
        { binTypes := Function.update h.binTypes a.type
            (LuaMatHandler.setInsert E f
              (Function.update h.heap (h.allocated + 1) (some ⟨a, 0⟩))
              (h.binTypes a.type) a (h.allocated + 1)),
          heap := Function.update h.heap (h.allocated + 1) (some ⟨a, 0⟩),
          allocated := h.allocated + 1 } (h.allocated + 1)).heap (h.allocated + 1) =
        some ⟨a, 0 + 1⟩ := by
      rw [Ref_heap]
      simp
    refine setFind_unique E f hmem hbn hself ?_
    · intro e he hne be hbe
      rw [Ref_heap] at hbe
      simp only [hne, if_false] at hbe
      rw [Function.update_noteq hne] at hbe
      rcases hsub e he with h1 | h1
      · exact absurd h1 hne
      · rw [← hkey]
        exact setFind_none E f hf e h1 be hbe

theorem Compare_ne_zero_iff_matEquiv (ha : Antisymmetric3 f) (x y : LuaMaterial Tex) :
    LuaMaterial.Compare E f x y ≠ 0 ↔ LuaMatHandler.matEquiv E f x y = false := by
  have h := matEquiv_iff E f ha x y
  cases h1 : LuaMatHandler.matEquiv E f x y
  · rw [h1] at h
    simp only [Bool.false_eq_true, false_iff] at h
    simp [h]
  · rw [h1] at h
    simp only [true_iff] at h
    simp [h]

end GetRefLemmas

/-! ### C7 -/

/-- C7: `GetRef` rejects untyped materials. For a material whose type is
outside `[0, LUAMAT_TYPE_COUNT)` it returns the empty reference and leaves
the handler as it was: no bin is created, every bin set and every bin, so
every reference count, is unchanged. -/
theorem GetRef_untyped {Tex : Type} (E : ShaderTypes) (f : Tex → Tex → Int) (typeCount : Int)
    (h : LuaMatHandler Tex) (mat : LuaMaterial Tex)
    (hty : ¬ (0 ≤ mat.type ∧ mat.type < typeCount)) :
    (LuaMatHandler.GetRef E f typeCount h mat).1 = none ∧
    (LuaMatHandler.GetRef E f typeCount h mat).2 = h ∧
    (LuaMatHandler.GetRef E f typeCount h mat).2.allocated = h.allocated ∧
    (∀ t, (LuaMatHandler.GetRef E f typeCount h mat).2.binTypes t = h.binTypes t) ∧
    (∀ addr, (LuaMatHandler.GetRef E f typeCount h mat).2.heap addr = h.heap addr) := by
  have hc : mat.type < 0 ∨ mat.type ≥ typeCount := by omega
  have e : LuaMatHandler.GetRef E f typeCount h mat = (none, h) := by
    simp only [LuaMatHandler.GetRef, hc, if_true, LuaMatRef.null]
  rw [e]
  simp

/-- A use of C7: with five material types, the plain material retyped to 5
gets the empty reference from an empty handler. -/
theorem GetRef_untyped_witness :
    (LuaMatHandler.GetRef ShaderTypes.inOrder cmpI 5 LuaMatHandler.empty
      { plainMat with type := 5 }).1 = none :=
  (GetRef_untyped ShaderTypes.inOrder cmpI 5 LuaMatHandler.empty
    { plainMat with type := 5 } (by decide)).1


/-! ### The bins of reachable worlds -/

section InvLemmas

variable {Tex : Type} (E : ShaderTypes) (f : Tex → Tex → Int)

theorem matEquiv_comm (x y : LuaMaterial Tex) :
    LuaMatHandler.matEquiv E f x y = LuaMatHandler.matEquiv E f y x := by
  unfold LuaMatHandler.matEquiv
  exact Bool.and_comm _ _

theorem matEquiv_self (ha : Antisymmetric3 f) (x : LuaMaterial Tex) :
    LuaMatHandler.matEquiv E f x x = true :=
  (matEquiv_iff E f ha x x).mpr (Compare_self E ha x)

theorem BinInv.congr {h : LuaMatHandler Tex} {cnt cnt2 : Nat → Nat}
    (hi : BinInv E f h cnt) (hc : ∀ a, cnt2 a = cnt a) : BinInv E f h cnt2 := by
  have : cnt2 = cnt := funext hc
  rw [this]
  exact hi

theorem BinInv.init : BinInv E f (LuaMatHandler.empty : LuaMatHandler Tex) (fun _ => 0) := by
  refine ⟨?_, ?_, ?_, ?_⟩
  · intro t addr h
    simp [LuaMatHandler.empty] at h
  · intro t
    simp [LuaMatHandler.empty]
  · intro addr h
    simp at h
  · intro addr h
    simp [LuaMatHandler.empty] at h

/-- Changing the reference count of a bin that is referenced, to the new
number of references. -/
theorem BinInv.recount {h : LuaMatHandler Tex} {cnt cnt2 : Nat → Nat} {e : Nat}
    {b : LuaMatBin Tex} (hi : BinInv E f h cnt) (he : h.heap e = some b)
    (hin : e ∈ h.binTypes b.mat.type) (c : Int)
    (hc : c = cnt2 e) (hpos : 1 ≤ cnt2 e) (hrest : ∀ a, a ≠ e → cnt2 a = cnt a) :
    BinInv E f { h with heap := Function.update h.heap e (some { b with refCount := c }) }
      cnt2 := by
  have hmat : ∀ x bx, Function.update h.heap e (some { b with refCount := c }) x = some bx →
      ∃ b0, h.heap x = some b0 ∧ b0.mat = bx.mat := by
    intro x bx hx
    by_cases hxe : x = e
    · subst hxe
      rw [Function.update_same] at hx
      cases hx
      exact ⟨b, he, rfl⟩
    · rw [Function.update_noteq hxe] at hx
      exact ⟨bx, hx, rfl⟩
  refine ⟨?_, ?_, ?_, ?_⟩
  · intro t addr hmem
    obtain ⟨bin, h1, h2, h3, h4⟩ := hi.counted t addr hmem
    by_cases hae : addr = e
    · subst hae
      rw [he] at h1
      cases h1
      exact ⟨_, Function.update_same _ _ _, h2, hc, hpos⟩
    · refine ⟨bin, ?_, h2, ?_, ?_⟩
      · show Function.update h.heap e _ addr = some bin
        rw [Function.update_noteq hae]
        exact h1
      · rw [hrest addr hae]; exact h3
      · rw [hrest addr hae]; exact h4
  · intro t
    refine (hi.distinct t).imp ?_
    intro x y hR bx cy hx hy
    obtain ⟨b0, hb0, e0⟩ := hmat x bx hx
    obtain ⟨c0, hc0, e1⟩ := hmat y cy hy
    rw [← e0, ← e1]
    exact hR b0 c0 hb0 hc0
  · intro addr hpos2
    by_cases hae : addr = e
    · subst hae
      exact ⟨_, Function.update_same _ _ _, hin⟩
    · rw [hrest addr hae] at hpos2
      obtain ⟨bin, h1, h2⟩ := hi.held addr hpos2
      refine ⟨bin, ?_, h2⟩
      show Function.update h.heap e _ addr = some bin
      rw [Function.update_noteq hae]
      exact h1
  · intro addr hs
    apply hi.fresh
    by_cases hae : addr = e
    · subst hae
      simp [he]
    · have : Function.update h.heap e (some { b with refCount := c }) addr = h.heap addr :=
        Function.update_noteq hae _ _
      simpa [this] using hs

theorem BinInv.Ref {h : LuaMatHandler Tex} {cnt : Nat → Nat} {e : Nat}
    (hi : BinInv E f h cnt) (hpos : 1 ≤ cnt e) :
    BinInv E f (h.Ref e) (Function.update cnt e (cnt e + 1)) := by
  obtain ⟨b, hb, hin⟩ := hi.held e hpos
  obtain ⟨b2, hb2, _, hcnt, _⟩ := hi.counted _ e hin
  rw [hb] at hb2
  cases hb2
  have : h.Ref e =
      { h with heap := Function.update h.heap e (some { b with refCount := b.refCount + 1 }) } := by
    simp [LuaMatHandler.Ref, hb]
  rw [this]
  refine BinInv.recount E f hi hb hin _ ?_ ?_ ?_
  · simp [hcnt]
  · simp
  · intro a ha
    simp [Function.update_noteq ha]


theorem pairwise_insertSorted (heap : Nat → Option (LuaMatBin Tex)) (m : LuaMaterial Tex)
    (n : Nat) (R : Nat → Nat → Prop) (l : List Nat) (hl : l.Pairwise R)
    (hn : ∀ x ∈ l, R n x ∧ R x n) :
    (LuaMatHandler.insertSorted E f heap m n l).Pairwise R := by
  induction l with
  | nil => simp [LuaMatHandler.insertSorted]
  | cons e rest ih =>
    have hrest : rest.Pairwise R := (List.pairwise_cons.mp hl).2
    have he : ∀ a, a ∈ rest → R e a := (List.pairwise_cons.mp hl).1
    have ih2 := ih hrest (fun x hx => hn x (List.mem_cons_of_mem _ hx))
    have hcons : (e :: LuaMatHandler.insertSorted E f heap m n rest).Pairwise R := by
      refine List.pairwise_cons.mpr ⟨?_, ih2⟩
      intro a hmem
      rcases (mem_insertSorted E f heap m n rest a).mp hmem with h1 | h1
      · subst h1
        exact (hn e (List.mem_cons_self _ _)).2
      · exact he a h1
    have hfront : (n :: e :: rest).Pairwise R :=
      List.pairwise_cons.mpr ⟨fun a hmem => (hn a hmem).1, hl⟩
    simp only [LuaMatHandler.insertSorted]
    cases heap e with
    | none => exact hcons
    | some b =>
      by_cases hlt : LuaMatHandler.matLess E f m b.mat = true
      · simpa [hlt] using hfront
      · simpa [hlt] using hcons

theorem BinInv.nodup (ha : Antisymmetric3 f) {h : LuaMatHandler Tex} {cnt : Nat → Nat}
    (hi : BinInv E f h cnt) (t : Int) : (h.binTypes t).Nodup := by
  refine (hi.distinct t).imp_of_mem ?_
  intro x y hx _ hR hxy
  subst hxy
  obtain ⟨bin, h1, _⟩ := hi.counted t x hx
  have := hR bin bin h1 h1
  rw [matEquiv_self E f ha] at this
  cases this

theorem BinInv.setFind_self (ha : Antisymmetric3 f) {h : LuaMatHandler Tex} {cnt : Nat → Nat}
    (hi : BinInv E f h cnt) {e : Nat} {b : LuaMatBin Tex} (he : h.heap e = some b)
    (hin : e ∈ h.binTypes b.mat.type) :
    LuaMatHandler.setFind E f h.heap (h.binTypes b.mat.type) b.mat = some e := by
  refine setFind_unique E f hin he (matEquiv_self E f ha _) ?_
  intro x hx hne bx hbx
  have hsym : Symmetric (fun x y => ∀ bx cy, h.heap x = some bx →
      h.heap y = some cy → LuaMatHandler.matEquiv E f bx.mat cy.mat = false) := by
    intro p q hpq bq cp hq hp
    rw [matEquiv_comm]
    exact hpq cp bq hp hq
  exact (hi.distinct b.mat.type).forall hsym hx hin hne bx b hbx he

theorem BinInv.UnRef_last (ha : Antisymmetric3 f) {h : LuaMatHandler Tex} {cnt : Nat → Nat}
    (hi : BinInv E f h cnt) {e : Nat} {b : LuaMatBin Tex} (hb : h.heap e = some b)
    (hin : e ∈ h.binTypes b.mat.type) (hz : b.refCount - 1 ≤ 0) :
    h.UnRef E f e =
      { h with heap := Function.update h.heap e none,
               binTypes := Function.update h.binTypes b.mat.type
                 ((h.binTypes b.mat.type).erase e) } := by
  have hfind : LuaMatHandler.setFind E f
      (Function.update h.heap e (some { b with refCount := b.refCount - 1 }))
      (h.binTypes b.mat.type) b.mat = some e := by
    rw [setFind_congr_heap E f _ h.heap _ b.mat]
    · exact hi.setFind_self E f ha hb hin
    · intro x _
      by_cases hxe : x = e
      · subst hxe
        simp [hb]
      · simp [Function.update_noteq hxe]
  simp [LuaMatHandler.UnRef, hb, hz, LuaMatHandler.FreeBin, hfind]

theorem BinInv.UnRef (ha : Antisymmetric3 f) {h : LuaMatHandler Tex} {cnt : Nat → Nat}
    {e : Nat} (hi : BinInv E f h cnt) (hpos : 1 ≤ cnt e) :
    BinInv E f (h.UnRef E f e) (Function.update cnt e (cnt e - 1)) := by
  obtain ⟨b, hb, hin⟩ := hi.held e hpos
  obtain ⟨b2, hb2, _, hcnt, _⟩ := hi.counted _ e hin
  rw [hb] at hb2
  cases hb2
  by_cases hz : b.refCount - 1 ≤ 0
  · -- the last reference goes: the bin is freed
    have hone : cnt e = 1 := by omega
    have hU := hi.UnRef_last E f ha hb hin hz
    rw [hU]
    have hnd := hi.nodup E f ha b.mat.type
    refine ⟨?_, ?_, ?_, ?_⟩
    · intro t addr hmem
      have hae : addr ≠ e ∧ addr ∈ h.binTypes t := by
        by_cases ht : t = b.mat.type
        · subst ht
          simp only [Function.update_same] at hmem
          exact (hnd.mem_erase_iff).mp hmem
        · simp only [Function.update_noteq ht] at hmem
          refine ⟨?_, hmem⟩
          intro hEQ
          subst hEQ
          obtain ⟨bin, h1, h2, _⟩ := hi.counted t addr hmem
          rw [hb] at h1
          cases h1
          exact ht h2.symm
      obtain ⟨bin, h1, h2, h3, h4⟩ := hi.counted t addr hae.2
      refine ⟨bin, ?_, h2, ?_, ?_⟩
      · show Function.update h.heap e none addr = some bin
        rw [Function.update_noteq hae.1]
        exact h1
      · rw [Function.update_noteq hae.1]; exact h3
      · rw [Function.update_noteq hae.1]; exact h4
    · intro t
      have hsub : (Function.update h.binTypes b.mat.type
          ((h.binTypes b.mat.type).erase e) t).Sublist (h.binTypes t) := by
        by_cases ht : t = b.mat.type
        · subst ht
          simp only [Function.update_same]
          exact List.erase_sublist _ _
        · simp only [Function.update_noteq ht]
          exact List.Sublist.refl _
      refine ((hi.distinct t).sublist hsub).imp ?_
      intro x y hR bx cy hx hy
      have hx2 : h.heap x = some bx := by
        by_cases hxe : x = e
        · subst hxe
          simp at hx
        · simpa [Function.update_noteq hxe] using hx
      have hy2 : h.heap y = some cy := by
        by_cases hye : y = e
        · subst hye
          simp at hy
        · simpa [Function.update_noteq hye] using hy
      exact hR bx cy hx2 hy2
    · intro addr hpos2
      have hae : addr ≠ e := by
        intro hEQ
        subst hEQ
        simp [hone] at hpos2
      rw [Function.update_noteq hae] at hpos2
      obtain ⟨bin, h1, h2⟩ := hi.held addr hpos2
      refine ⟨bin, ?_, ?_⟩
      · show Function.update h.heap e none addr = some bin
        rw [Function.update_noteq hae]
        exact h1
      · show addr ∈ Function.update h.binTypes b.mat.type _ bin.mat.type
        by_cases ht : bin.mat.type = b.mat.type
        · rw [ht, Function.update_same]
          rw [ht] at h2
          exact (List.mem_erase_of_ne hae).mpr h2
        · rw [Function.update_noteq ht]
          exact h2
    · intro addr hs
      apply hi.fresh
      by_cases hae : addr = e
      · subst hae
        simp [hb]
      · have : Function.update h.heap e none addr = h.heap addr :=
          Function.update_noteq hae _ _
        simpa [this] using hs
  · have hU : h.UnRef E f e =
        { h with
          heap := Function.update h.heap e (some { b with refCount := b.refCount - 1 }) } := by
      simp [LuaMatHandler.UnRef, hb, hz]
    rw [hU]
    refine BinInv.recount E f hi hb hin _ ?_ ?_ ?_
    · simp only [Function.update_same]
      omega
    · simp only [Function.update_same]
      omega
    · intro a hne
      simp [Function.update_noteq hne]


theorem BinInv.insertNew {h : LuaMatHandler Tex} {cnt : Nat → Nat}
    (hi : BinInv E f h cnt) (m : LuaMaterial Tex)
    (hf : LuaMatHandler.setFind E f h.heap (h.binTypes m.type) m = none) :
    BinInv E f
      (LuaMatHandler.Ref
        { binTypes := Function.update h.binTypes m.type
            (LuaMatHandler.setInsert E f
              (Function.update h.heap (h.allocated + 1) (some ⟨m, 0⟩))
              (h.binTypes m.type) m (h.allocated + 1)),
          heap := Function.update h.heap (h.allocated + 1) (some ⟨m, 0⟩),
          allocated := h.allocated + 1 }
        (h.allocated + 1))
      (Function.update cnt (h.allocated + 1) (cnt (h.allocated + 1) + 1)) := by
  -- the new address is unused so far
  have hnone : h.heap (h.allocated + 1) = none := by
    cases hh : h.heap (h.allocated + 1) with
    | none => rfl
    | some b =>
      have := hi.fresh (h.allocated + 1) (by simp [hh])
      omega
  have hzero : cnt (h.allocated + 1) = 0 := by
    by_contra hne
    obtain ⟨bin, h1, _⟩ := hi.held (h.allocated + 1) (by omega)
    rw [hnone] at h1
    cases h1
  have hold : ∀ t x, x ∈ h.binTypes t → x ≠ h.allocated + 1 := by
    intro t x hx hEQ
    obtain ⟨bin, h1, _⟩ := hi.counted t x hx
    rw [hEQ, hnone] at h1
    cases h1
  have hfind1 : LuaMatHandler.setFind E f
      (Function.update h.heap (h.allocated + 1) (some ⟨m, 0⟩)) (h.binTypes m.type) m = none := by
    rw [setFind_congr_heap E f _ h.heap _ m]
    · exact hf
    · intro x hx
      rw [Function.update_noteq (hold _ x hx)]
  have hins : LuaMatHandler.setInsert E f
      (Function.update h.heap (h.allocated + 1) (some ⟨m, 0⟩))
      (h.binTypes m.type) m (h.allocated + 1) =
      LuaMatHandler.insertSorted E f (Function.update h.heap (h.allocated + 1) (some ⟨m, 0⟩))
        m (h.allocated + 1) (h.binTypes m.type) := by
    simp only [LuaMatHandler.setInsert, hfind1]
  rw [hins]
  have hR : LuaMatHandler.Ref
      { binTypes := Function.update h.binTypes m.type
          (LuaMatHandler.insertSorted E f
            (Function.update h.heap (h.allocated + 1) (some ⟨m, 0⟩)) m (h.allocated + 1)
            (h.binTypes m.type)),
        heap := Function.update h.heap (h.allocated + 1) (some ⟨m, 0⟩),
        allocated := h.allocated + 1 } (h.allocated + 1) =
      { binTypes := Function.update h.binTypes m.type
          (LuaMatHandler.insertSorted E f
            (Function.update h.heap (h.allocated + 1) (some ⟨m, 0⟩)) m (h.allocated + 1)
            (h.binTypes m.type)),
        heap := Function.update h.heap (h.allocated + 1) (some ⟨m, 1⟩),
        allocated := h.allocated + 1 } := by
    simp [LuaMatHandler.Ref]
  rw [hR]
  refine ⟨?_, ?_, ?_, ?_⟩
  · intro t addr hmem
    have hcases : addr = h.allocated + 1 ∧ t = m.type ∨
        addr ≠ h.allocated + 1 ∧ addr ∈ h.binTypes t := by
      by_cases ht : t = m.type
      · subst ht
        simp only [Function.update_same] at hmem
        rcases (mem_insertSorted E f _ m _ _ addr).mp hmem with h1 | h1
        · exact Or.inl ⟨h1, rfl⟩
        · exact Or.inr ⟨hold _ addr h1, h1⟩
      · simp only [Function.update_noteq ht] at hmem
        exact Or.inr ⟨hold _ addr hmem, hmem⟩
    rcases hcases with ⟨h1, h2⟩ | ⟨h1, h2⟩
    · subst h1
      refine ⟨⟨m, 1⟩, Function.update_same _ _ _, h2.symm, ?_, ?_⟩
      · simp [hzero]
      · simp
    · obtain ⟨bin, h3, h4, h5, h6⟩ := hi.counted t addr h2
      refine ⟨bin, ?_, h4, ?_, ?_⟩
      · show Function.update h.heap _ _ addr = some bin
        rw [Function.update_noteq h1]
        exact h3
      · rw [Function.update_noteq h1]; exact h5
      · rw [Function.update_noteq h1]; exact h6
  · intro t
    have hkeep : (h.binTypes t).Pairwise (fun x y => ∀ bx cy,
        Function.update h.heap (h.allocated + 1) (some ⟨m, 1⟩) x = some bx →
        Function.update h.heap (h.allocated + 1) (some ⟨m, 1⟩) y = some cy →
        LuaMatHandler.matEquiv E f bx.mat cy.mat = false) := by
      refine (hi.distinct t).imp_of_mem ?_
      intro x y hx hy hRxy bx cy hbx hcy
      rw [Function.update_noteq (hold t x hx)] at hbx
      rw [Function.update_noteq (hold t y hy)] at hcy
      exact hRxy bx cy hbx hcy
    by_cases ht : t = m.type
    · subst ht
      show (Function.update h.binTypes m.type _ m.type).Pairwise _
      rw [Function.update_same]
      refine pairwise_insertSorted E f _ m _ _ _ hkeep ?_
      intro x hx
      have hxn := hold _ x hx
      have hnx : ∀ bx, h.heap x = some bx → LuaMatHandler.matEquiv E f bx.mat m = false :=
        fun bx hbx => setFind_none E f hf x hx bx hbx
      constructor
      · intro bx cy hbx hcy
        dsimp only at hbx hcy
        rw [Function.update_same] at hbx
        rw [Function.update_noteq hxn] at hcy
        cases hbx
        rw [matEquiv_comm]
        exact hnx cy hcy
      · intro bx cy hbx hcy
        dsimp only at hbx hcy
        rw [Function.update_same] at hcy
        rw [Function.update_noteq hxn] at hbx
        cases hcy
        exact hnx bx hbx
    · show (Function.update h.binTypes m.type _ t).Pairwise _
      rw [Function.update_noteq ht]
      exact hkeep
  · intro addr hpos
    by_cases hae : addr = h.allocated + 1
    · subst hae
      refine ⟨⟨m, 1⟩, Function.update_same _ _ _, ?_⟩
      show h.allocated + 1 ∈ Function.update h.binTypes m.type _ m.type
      rw [Function.update_same]
      exact (mem_insertSorted E f _ m _ _ _).mpr (Or.inl rfl)
    · rw [Function.update_noteq hae] at hpos
      obtain ⟨bin, h1, h2⟩ := hi.held addr hpos
      refine ⟨bin, ?_, ?_⟩
      · show Function.update h.heap _ _ addr = some bin
        rw [Function.update_noteq hae]
        exact h1
      · show addr ∈ Function.update h.binTypes m.type _ bin.mat.type
        by_cases ht : bin.mat.type = m.type
        · rw [ht, Function.update_same]
          rw [ht] at h2
          exact (mem_insertSorted E f _ m _ _ _).mpr (Or.inr h2)
        · rw [Function.update_noteq ht]
          exact h2
  · intro addr hs
    show addr ≤ h.allocated + 1
    by_cases hae : addr = h.allocated + 1
    · omega
    · have : Function.update h.heap (h.allocated + 1) (some ⟨m, 1⟩) addr = h.heap addr :=
        Function.update_noteq hae _ _
      have h2 := hi.fresh addr (by simpa [this] using hs)
      omega

theorem BinInv.GetRef (typeCount : Int) {h : LuaMatHandler Tex} {cnt : Nat → Nat}
    (hi : BinInv E f h cnt) (m : LuaMaterial Tex) :
    BinInv E f (LuaMatHandler.GetRef E f typeCount h m).2
      (fun a => cnt a + if (LuaMatHandler.GetRef E f typeCount h m).1 = some a then 1 else 0) := by
  by_cases hty : 0 ≤ m.type ∧ m.type < typeCount
  · cases hf : LuaMatHandler.setFind E f h.heap (h.binTypes m.type) m with
    | some e =>
      rw [GetRef_found E f typeCount h m e hty hf]
      obtain ⟨hmem, _⟩ := setFind_some E f hf
      obtain ⟨_, _, _, _, hpos⟩ := hi.counted _ e hmem
      refine (hi.Ref E f hpos).congr E f ?_
      intro a
      by_cases hae : a = e
      · subst hae
        simp
      · have : ¬ e = a := fun hh => hae hh.symm
        simp [Function.update_noteq hae, this]
    | none =>
      rw [GetRef_new E f typeCount h m hty hf]
      refine (hi.insertNew E f m hf).congr E f ?_
      intro a
      by_cases hae : a = h.allocated + 1
      · subst hae
        simp
      · have : ¬ h.allocated + 1 = a := fun hh => hae hh.symm
        simp [Function.update_noteq hae, this]
  · have hc : m.type < 0 ∨ m.type ≥ typeCount := by omega
    have e : LuaMatHandler.GetRef E f typeCount h m = (none, h) := by
      simp only [LuaMatHandler.GetRef, hc, if_true, LuaMatRef.null]
    rw [e]
    exact hi.congr E f (fun a => by simp)

end InvLemmas

section WorldLemmas

variable {Tex : Type} (E : ShaderTypes) (f : Tex → Tex → Int)

theorem liveRef_spec {w : MatWorld Tex} {i : Nat} {self : Option Nat}
    (h : w.liveRef i = some self) : w.refs[i]? = some (some self) := by
  unfold MatWorld.liveRef at h
  rw [List.get?_eq_getElem?] at h
  cases hg : w.refs[i]? with
  | none => rw [hg] at h; cases h
  | some x =>
    rw [hg] at h
    cases x with
    | none => cases h
    | some y =>
      simp only [Option.join] at h
      cases h
      rfl

theorem count_append_one (refs : List (Option (Option Nat))) (x : Option (Option Nat))
    (a : Nat) :
    (refs ++ [x]).count (some (some a)) =
      refs.count (some (some a)) + if x = some (some a) then 1 else 0 := by
  rw [List.count_append, List.count_singleton]
  simp

theorem count_set_live {refs : List (Option (Option Nat))} {i : Nat} {self : Option Nat}
    (hg : refs[i]? = some (some self)) (new : Option (Option Nat)) (a : Nat) :
    (refs.set i new).count (some (some a)) =
      refs.count (some (some a)) - (if self = some a then 1 else 0) +
        (if new = some (some a) then 1 else 0) := by
  obtain ⟨hlt, hget⟩ := List.getElem?_eq_some.mp hg
  rw [List.count_set _ _ _ _ hlt, hget]
  simp

theorem count_pos_of_live {refs : List (Option (Option Nat))} {i : Nat} {b : Nat}
    (hg : refs[i]? = some (some (some b))) : 1 ≤ refs.count (some (some b)) := by
  rw [List.one_le_count_iff]
  exact List.getElem?_mem hg

theorem BinInv.step (ha : Antisymmetric3 f) (typeCount : Int) (w : MatWorld Tex)
    (op : RefOp Tex) (hi : BinInv E f w.handler w.refsTo) :
    BinInv E f (MatWorld.step E f typeCount w op).handler
      (MatWorld.step E f typeCount w op).refsTo := by
  cases op with
  | getRef mat =>
    refine (hi.GetRef E f typeCount mat).congr E f ?_
    intro a
    simp only [MatWorld.step, MatWorld.refsTo, count_append_one]
    simp
  | construct =>
    refine hi.congr E f ?_
    intro a
    simp [MatWorld.step, MatWorld.refsTo, count_append_one, LuaMatRef.null]
  | copy i =>
    simp only [MatWorld.step]
    cases hl : w.liveRef i with
    | none => exact hi
    | some mr =>
      have hg := liveRef_spec hl
      cases mr with
      | none =>
        refine hi.congr E f ?_
        intro a
        simp [LuaMatRef.copy, MatWorld.refsTo, count_append_one]
      | some b =>
        have hpos : 1 ≤ w.refsTo b := count_pos_of_live hg
        refine (hi.Ref E f hpos).congr E f ?_
        intro a
        simp only [LuaMatRef.copy, MatWorld.refsTo, count_append_one]
        by_cases hab : a = b
        · subst hab
          simp
        · have : ¬ b = a := fun hh => hab hh.symm
          simp [Function.update_noteq hab, this, MatWorld.refsTo]
  | assign i j =>
    simp only [MatWorld.step]
    cases hl : w.liveRef i with
    | none => exact hi
    | some self =>
      cases hl2 : w.liveRef j with
      | none => exact hi
      | some mr =>
        have hg := liveRef_spec hl
        have hg2 := liveRef_spec hl2
        by_cases hsm : self = mr
        · subst hsm
          simp only [LuaMatRef.assign, ne_eq, not_true_eq_false, if_false]
          refine hi.congr E f ?_
          intro a
          simp only [MatWorld.refsTo, count_set_live hg]
          by_cases hsa : self = some a
          · subst hsa
            have := count_pos_of_live hg
            simp
            omega
          · simp [hsa]
        · simp only [LuaMatRef.assign, ne_eq, hsm, not_false_eq_true, if_true]
          cases self with
          | none =>
            cases mr with
            | none => exact absurd rfl hsm
            | some m2 =>
              have hpos : 1 ≤ w.refsTo m2 := count_pos_of_live hg2
              refine (hi.Ref E f hpos).congr E f ?_
              intro a
              simp only [MatWorld.refsTo, count_set_live hg]
              by_cases hab : a = m2
              · subst hab
                simp
              · have : ¬ m2 = a := fun hh => hab hh.symm
                simp [Function.update_noteq hab, this, MatWorld.refsTo]
          | some s =>
            have hpos : 1 ≤ w.refsTo s := count_pos_of_live hg
            have h1 := hi.UnRef E f ha hpos
            cases mr with
            | none =>
              refine h1.congr E f ?_
              intro a
              simp only [MatWorld.refsTo, count_set_live hg]
              by_cases hab : a = s
              · subst hab
                simp
              · have : ¬ s = a := fun hh => hab hh.symm
                simp [Function.update_noteq hab, this, MatWorld.refsTo]
            | some m2 =>
              have hne : m2 ≠ s := fun hh => hsm (by rw [hh])
              have hpos2 : 1 ≤ Function.update w.refsTo s (w.refsTo s - 1) m2 := by
                rw [Function.update_noteq hne]
                exact count_pos_of_live hg2
              refine (h1.Ref E f hpos2).congr E f ?_
              intro a
              simp only [MatWorld.refsTo, count_set_live hg]
              by_cases ham : a = m2
              · subst ham
                have : ¬ s = a := fun hh => hne hh.symm
                simp [Function.update_noteq hne, this, MatWorld.refsTo]
              · have h2 : ¬ m2 = a := fun hh => ham hh.symm
                rw [Function.update_noteq ham]
                by_cases has : a = s
                · subst has
                  simp [h2, MatWorld.refsTo]
                · have h3 : ¬ s = a := fun hh => has hh.symm
                  simp [Function.update_noteq has, h2, h3, MatWorld.refsTo]
  | reset i =>
    simp only [MatWorld.step]
    cases hl : w.liveRef i with
    | none => exact hi
    | some self =>
      have hg := liveRef_spec hl
      cases self with
      | none =>
        refine hi.congr E f ?_
        intro a
        simp [LuaMatRef.Reset, MatWorld.refsTo, count_set_live hg]
      | some s =>
        have hpos : 1 ≤ w.refsTo s := count_pos_of_live hg
        refine (hi.UnRef E f ha hpos).congr E f ?_
        intro a
        simp only [LuaMatRef.Reset, MatWorld.refsTo, count_set_live hg]
        by_cases hab : a = s
        · subst hab
          simp
        · have : ¬ s = a := fun hh => hab hh.symm
          simp [Function.update_noteq hab, this, MatWorld.refsTo]
  | destroy i =>
    simp only [MatWorld.step]
    cases hl : w.liveRef i with
    | none => exact hi
    | some self =>
      have hg := liveRef_spec hl
      cases self with
      | none =>
        refine hi.congr E f ?_
        intro a
        simp [LuaMatRef.destroy, MatWorld.refsTo, count_set_live hg]
      | some s =>
        have hpos : 1 ≤ w.refsTo s := count_pos_of_live hg
        refine (hi.UnRef E f ha hpos).congr E f ?_
        intro a
        simp only [LuaMatRef.destroy, MatWorld.refsTo, count_set_live hg]
        by_cases hab : a = s
        · subst hab
          simp
        · have : ¬ s = a := fun hh => hab hh.symm
          simp [Function.update_noteq hab, this, MatWorld.refsTo]

theorem Reachable.binInv (ha : Antisymmetric3 f) (typeCount : Int) {w : MatWorld Tex}
    (hw : Reachable E f typeCount w) : BinInv E f w.handler w.refsTo := by
  induction hw with
  | init =>
    refine (BinInv.init E f).congr E f ?_
    intro a
    simp [MatWorld.init, MatWorld.refsTo]
  | step w op _ ih => exact ih.step E f ha typeCount w op

end WorldLemmas

/-! ### C3, C4 -/

theorem GetRef_result {Tex : Type} (E : ShaderTypes) (f : Tex → Tex → Int) (typeCount : Int)
    (ha : Antisymmetric3 f) (h : LuaMatHandler Tex) (a : LuaMaterial Tex)
    (hty : 0 ≤ a.type ∧ a.type < typeCount) :
    ∃ bin held, (LuaMatHandler.GetRef E f typeCount h a).1 = some bin ∧
      bin ∈ (LuaMatHandler.GetRef E f typeCount h a).2.binTypes a.type ∧
      (LuaMatHandler.GetRef E f typeCount h a).2.heap bin = some held ∧
      LuaMaterial.Compare E f held.mat a = 0 := by
  cases hf : LuaMatHandler.setFind E f h.heap (h.binTypes a.type) a with
  | some e =>
    obtain ⟨hmem, b0, hb0, heq⟩ := setFind_some E f hf
    rw [GetRef_found E f typeCount h a e hty hf]
    refine ⟨e, { b0 with refCount := b0.refCount + 1 }, rfl, ?_, ?_, ?_⟩
    · rw [Ref_binTypes]
      exact hmem
    · rw [Ref_heap]
      simp [hb0]
    · exact (matEquiv_iff E f ha _ _).mp heq
  | none =>
    rw [GetRef_new E f typeCount h a hty hf]
    obtain ⟨hmem, _⟩ := mem_setInsert_of_none E f h.heap (h.binTypes a.type) a
      (h.allocated + 1) 0 hf
    refine ⟨h.allocated + 1, ⟨a, 0 + 1⟩, rfl, ?_, ?_, Compare_self E ha a⟩
    · rw [Ref_binTypes]
      simp only [Function.update_same]
      exact hmem
    · rw [Ref_heap]
      simp

/-- C3: `GetRef` bins materials by comparison. `LuaMatTexture::Compare` being
an antisymmetric and transitive comparator, for every handler state and
materials `a`, `b` of a valid type with `Compare(a, b) = 0` (which makes their
types equal): `GetRef(a)` followed by `GetRef(b)` returns two references to
the same bin. That bin is a live bin held in the set `binTypes[a.type]`, its
material is of that type and compares equal to `a` and to `b`, and the second
call counts one more reference on it and changes no other bin. The second call
creates and inserts no bin, and in no state that a program reaches does a bin
set hold two bins that compare equal. -/
theorem GetRef_bins_by_comparison {Tex : Type} (E : ShaderTypes) (f : Tex → Tex → Int)
    (typeCount : Int) (ha : Antisymmetric3 f) (ht : Transitive3 f) (h : LuaMatHandler Tex)
    (a b : LuaMaterial Tex) (hty : 0 ≤ a.type ∧ a.type < typeCount)
    (hab : LuaMaterial.Compare E f a b = 0) :
    (∃ bin held, (LuaMatHandler.GetRef E f typeCount h a).1 = some bin ∧
      (LuaMatHandler.GetRef E f typeCount (LuaMatHandler.GetRef E f typeCount h a).2 b).1 =
        some bin ∧
      bin ∈ (LuaMatHandler.GetRef E f typeCount h a).2.binTypes a.type ∧
      (LuaMatHandler.GetRef E f typeCount h a).2.heap bin = some held ∧
      held.mat.type = a.type ∧
      LuaMaterial.Compare E f held.mat a = 0 ∧
      LuaMaterial.Compare E f held.mat b = 0 ∧
      (LuaMatHandler.GetRef E f typeCount
        (LuaMatHandler.GetRef E f typeCount h a).2 b).2.heap bin =
        some { held with refCount := held.refCount + 1 } ∧
      (∀ x, x ≠ bin →
        (LuaMatHandler.GetRef E f typeCount
          (LuaMatHandler.GetRef E f typeCount h a).2 b).2.heap x =
        (LuaMatHandler.GetRef E f typeCount h a).2.heap x)) ∧
    (LuaMatHandler.GetRef E f typeCount (LuaMatHandler.GetRef E f typeCount h a).2 b).2.binTypes =
      (LuaMatHandler.GetRef E f typeCount h a).2.binTypes ∧
    (LuaMatHandler.GetRef E f typeCount (LuaMatHandler.GetRef E f typeCount h a).2 b).2.allocated =
      (LuaMatHandler.GetRef E f typeCount h a).2.allocated ∧
    (∀ x,
      ((LuaMatHandler.GetRef E f typeCount
        (LuaMatHandler.GetRef E f typeCount h a).2 b).2.heap x).isSome =
      ((LuaMatHandler.GetRef E f typeCount h a).2.heap x).isSome) ∧
    (∀ w, Reachable E f typeCount w → ∀ t, NoEqualBins E f w.handler t) := by
  obtain ⟨bin, h1, h2⟩ := GetRef_again E f typeCount ha ht h a b hty hab
  obtain ⟨bin2, held, h3, h4, h5, h6⟩ := GetRef_result E f typeCount ha h a hty
  have hbb : bin2 = bin := by
    rw [h1] at h3
    exact (Option.some.inj h3).symm
  subst hbb
  have h7 : LuaMaterial.Compare E f held.mat b = 0 := by
    have t1 := tri_Compare E ha ht held.mat a b
    unfold Tri at t1
    omega
  refine ⟨⟨bin2, held, h1, ?_, h4, h5, Compare_eq_zero_type E f h6, h6, h7, ?_, ?_⟩,
    ?_, ?_, ?_, ?_⟩
  · rw [h2]
  · rw [h2, Ref_heap]
    simp [h5]
  · intro x hx
    rw [h2, Ref_heap]
    simp [hx]
  · rw [h2]
    exact Ref_binTypes _ _
  · rw [h2]
    exact Ref_allocated _ _
  · intro x
    rw [h2]
    exact Ref_heap_isSome _ _ _
  · intro w hw t
    refine ((hw.binInv E f ha typeCount).distinct t).imp ?_
    intro x y hR bx cy hx hy
    exact (Compare_ne_zero_iff_matEquiv E f ha _ _).mpr (hR bx cy hx hy)

/-- A use of C3 on an empty handler with five material types: the plain
material and a material that differs from it in unused texture units only
get references to the same bin, which is held in the set of the plain
material's type and counts one more reference after the second call. -/
theorem GetRef_bins_by_comparison_witness :
    ∃ bin held,
      (LuaMatHandler.GetRef ShaderTypes.inOrder cmpI 5 LuaMatHandler.empty plainMat).1 =
        some bin ∧
      (LuaMatHandler.GetRef ShaderTypes.inOrder cmpI 5
        (LuaMatHandler.GetRef ShaderTypes.inOrder cmpI 5 LuaMatHandler.empty plainMat).2
        plainMat2).1 = some bin ∧
      bin ∈ (LuaMatHandler.GetRef ShaderTypes.inOrder cmpI 5 LuaMatHandler.empty
        plainMat).2.binTypes plainMat.type ∧
      (LuaMatHandler.GetRef ShaderTypes.inOrder cmpI 5 LuaMatHandler.empty plainMat).2.heap bin =
        some held ∧
      held.mat.type = plainMat.type ∧
      LuaMaterial.Compare ShaderTypes.inOrder cmpI held.mat plainMat = 0 ∧
      LuaMaterial.Compare ShaderTypes.inOrder cmpI held.mat plainMat2 = 0 ∧
      (LuaMatHandler.GetRef ShaderTypes.inOrder cmpI 5
        (LuaMatHandler.GetRef ShaderTypes.inOrder cmpI 5 LuaMatHandler.empty plainMat).2
        plainMat2).2.heap bin = some { held with refCount := held.refCount + 1 } ∧
      (∀ x, x ≠ bin →
        (LuaMatHandler.GetRef ShaderTypes.inOrder cmpI 5
          (LuaMatHandler.GetRef ShaderTypes.inOrder cmpI 5 LuaMatHandler.empty plainMat).2
          plainMat2).2.heap x =
        (LuaMatHandler.GetRef ShaderTypes.inOrder cmpI 5 LuaMatHandler.empty plainMat).2.heap x) :=
  (GetRef_bins_by_comparison ShaderTypes.inOrder cmpI 5 (fun a b => cmpI_neg a b)
    (fun a b c => (tri_cmpI a b c).1) LuaMatHandler.empty plainMat plainMat2
    (by decide) (by decide)).1

/-- C4: the reference-count invariant of material bins. In every world
reached from an empty handler through `GetRef` and the construction, copy,
assignment, `Reset` and destruction of `LuaMatRef` objects, each bin held in
a bin set has a `refCount` equal to the number of live `LuaMatRef` objects
that point at it, and that number is at least 1; and when `UnRef` takes the
count of such a bin to 0, `FreeBin` deletes the bin and removes it from its
set. `LuaMatTexture::Compare` is taken to be antisymmetric. -/
theorem refCount_invariant {Tex : Type} (E : ShaderTypes) (f : Tex → Tex → Int)
    (typeCount : Int) (ha : Antisymmetric3 f) (w : MatWorld Tex)
    (hw : Reachable E f typeCount w) :
    (∀ t addr, addr ∈ w.handler.binTypes t →
      ∃ bin, w.handler.heap addr = some bin ∧ bin.refCount = (w.refsTo addr : Int) ∧
        1 ≤ w.refsTo addr) ∧
    (∀ t addr bin, addr ∈ w.handler.binTypes t → w.handler.heap addr = some bin →
      bin.refCount - 1 ≤ 0 →
      (w.handler.UnRef E f addr).heap addr = none ∧
      ∀ t2, addr ∉ (w.handler.UnRef E f addr).binTypes t2) := by
  have hi := hw.binInv E f ha typeCount
  refine ⟨?_, ?_⟩
  · intro t addr hmem
    obtain ⟨bin, h1, _, h3, h4⟩ := hi.counted t addr hmem
    exact ⟨bin, h1, h3, h4⟩
  · intro t addr bin hmem hbin hz
    obtain ⟨bin2, h1, h2, _, _⟩ := hi.counted t addr hmem
    rw [hbin] at h1
    cases h1
    subst h2
    rw [hi.UnRef_last E f ha hbin hmem hz]
    refine ⟨Function.update_same _ _ _, ?_⟩
    intro t2 hmem2
    by_cases ht : t2 = bin.mat.type
    · subst ht
      simp only [Function.update_same] at hmem2
      exact ((hi.nodup E f ha bin.mat.type).mem_erase_iff.mp hmem2).1 rfl
    · simp only [Function.update_noteq ht] at hmem2
      obtain ⟨bin3, h5, h6, _⟩ := hi.counted t2 addr hmem2
      rw [hbin] at h5
      cases h5
      exact ht h6.symm

/-- A use of C4 at the world with two references to one bin: the bin at
address 1 is in the set of material type 1 and its count is the number of
references to it. -/
theorem refCount_invariant_witness :
    ∃ bin, twoRefWorld.handler.heap 1 = some bin ∧
      bin.refCount = (twoRefWorld.refsTo 1 : Int) ∧ 1 ≤ twoRefWorld.refsTo 1 :=
  (refCount_invariant ShaderTypes.inOrder cmpI 5 (fun a b => cmpI_neg a b) twoRefWorld
    (Reachable.step _ _ (Reachable.step _ _ Reachable.init))).1 1 1 (by decide)


/-! ### Parse -/

section ParseLemmas

variable {Tex Val : Type} (api : LuaApi Val) (ParseShader : Val → LuaMatShader → LuaMatShader)
  (ParseTexture : Val → Tex → Tex) (ParseDisplayList : Val → Nat) (maxTexUnits : Nat)

theorem TexInv.of_eq {m : LuaMaterial Tex} {st st2 : ParseState Tex}
    (h : TexInv maxTexUnits m st) (hw : st2.texWrites = st.texWrites)
    (ht : st2.mat.textures = st.mat.textures) : TexInv maxTexUnits m st2 := by
  unfold TexInv at *
  rw [hw, ht]
  exact h

theorem TexInv.writeTexture {m : LuaMaterial Tex} {st : ParseState Tex}
    (h : TexInv maxTexUnits m st) (i : Nat) (hi : i < maxTexUnits) (v : Val) :
    TexInv maxTexUnits m (writeTexture ParseTexture st i v) := by
  refine ⟨?_, ?_⟩
  · intro j hj
    simp only [Spring.writeTexture, List.mem_append, List.mem_singleton] at hj
    rcases hj with hj | hj
    · exact h.1 j hj
    · omega
  · intro j hj
    simp only [Spring.writeTexture, List.mem_append, List.mem_singleton, not_or] at hj
    show Function.update st.mat.textures i _ j = m.textures j
    rw [Function.update_noteq hj.2]
    exact h.2 j hj.1

theorem TexInv.texUnitsEntry {m : LuaMaterial Tex} {st : ParseState Tex}
    (h : TexInv maxTexUnits m st) (k v : Val) :
    TexInv maxTexUnits m (texUnitsEntry api ParseTexture maxTexUnits st k v) := by
  unfold Spring.texUnitsEntry
  by_cases h1 : api.israwnumber k = true
  · by_cases h2 : toUnsigned (api.toint k) ≥ maxTexUnits
    · simpa [h1, h2] using h
    · simpa [h1, h2] using h.writeTexture ParseTexture maxTexUnits _ (by omega) v
  · simpa [h1] using h

theorem TexInv.foldl {m : LuaMaterial Tex} (es : List (Val × Val)) :
    ∀ {st : ParseState Tex}, TexInv maxTexUnits m st →
      TexInv maxTexUnits m (es.foldl
        (fun s kv => Spring.texUnitsEntry api ParseTexture maxTexUnits s kv.1 kv.2) st) := by
  induction es with
  | nil => intro st h; exact h
  | cons e rest ih =>
    intro st h
    exact ih (h.texUnitsEntry api ParseTexture maxTexUnits e.1 e.2)

theorem TexInv.parseTexUnit {m : LuaMaterial Tex} {st : ParseState Tex}
    (h : TexInv maxTexUnits m st) (key : List Char) (v : Val) :
    TexInv maxTexUnits m (parseTexUnit api ParseTexture maxTexUnits st key v) := by
  unfold Spring.parseTexUnit
  by_cases h1 : key.length < 8
  · simpa [h1] using h
  · by_cases h2 : key.get? 7 = some 's'
    · by_cases h3 : api.istable v = true
      · simp only [h1, h2, h3, if_true, if_false, not_true_eq_false]
        exact TexInv.foldl api ParseTexture maxTexUnits _ h
      · simp only [h1, h2, h3, if_true, if_false, not_false_eq_true]
        exact h
    · by_cases h3 : toUnsigned (atoi (key.drop 7)) ≥ maxTexUnits
      · simp only [h1, h2, h3, if_true, if_false]
        exact h
      · simp only [h1, h2, h3, if_false]
        exact h.writeTexture ParseTexture maxTexUnits _ (by omega) v

theorem TexInv.parseKey {m : LuaMaterial Tex} {st : ParseState Tex}
    (h : TexInv maxTexUnits m st) (key : List Char) (v : Val) :
    TexInv maxTexUnits m
      (parseKey api ParseShader ParseTexture ParseDisplayList maxTexUnits st key v) := by
  unfold Spring.parseKey
  split_ifs
  · exact h.of_eq maxTexUnits rfl rfl
  · exact h.of_eq maxTexUnits rfl rfl
  · exact h.parseTexUnit api ParseTexture maxTexUnits key v
  · exact h.of_eq maxTexUnits rfl rfl
  · exact h.of_eq maxTexUnits rfl rfl
  · cases api.checkint v with
    | none => exact h.of_eq maxTexUnits rfl rfl
    | some n => exact h.of_eq maxTexUnits rfl rfl
  · exact h.of_eq maxTexUnits rfl rfl
  · exact h
  · exact h.of_eq maxTexUnits rfl rfl
  · exact h

theorem UniformLoc.store_textures (loc : UniformLoc) (m : LuaMaterial Tex) (x : Int) :
    (loc.store m x).textures = m.textures := by
  cases loc <;> rfl

theorem TexInv.parseEntry {m : LuaMaterial Tex} {st : ParseState Tex}
    (h : TexInv maxTexUnits m st) (k v : Val) :
    TexInv maxTexUnits m
      (parseEntry api ParseShader ParseTexture ParseDisplayList maxTexUnits st k v) := by
  unfold Spring.parseEntry
  by_cases h1 : api.israwstring k = true
  · simp only [h1, not_true_eq_false, if_false]
    cases hu : uniformLocs (StringToLower (api.tostring k)) with
    | none => exact h.parseKey api ParseShader ParseTexture ParseDisplayList maxTexUnits _ v
    | some loc =>
      by_cases h2 : api.isnumber v = true
      · simp only [h2, not_true_eq_false, if_false]
        refine TexInv.parseKey api ParseShader ParseTexture ParseDisplayList maxTexUnits ?_ _ v
        exact h.of_eq maxTexUnits rfl (UniformLoc.store_textures loc _ _)
      · simp only [h2, not_false_eq_true, if_true]
        exact h
  · simp only [h1, not_false_eq_true, if_true]
    exact h

theorem TexInv.parseLoop {m : LuaMaterial Tex} (table : List (Val × Val)) :
    ∀ {st : ParseState Tex}, TexInv maxTexUnits m st →
      TexInv maxTexUnits m
        (parseLoop api ParseShader ParseTexture ParseDisplayList maxTexUnits table st) := by
  induction table with
  | nil => intro st h; exact h
  | cons e rest ih =>
    intro st h
    obtain ⟨k, v⟩ := e
    have h1 := h.parseEntry api ParseShader ParseTexture ParseDisplayList maxTexUnits k v
    simp only [Spring.parseLoop]
    split_ifs
    · exact h1
    · exact ih h1

theorem take_texunit (rest : List Char) :
    ("texunit".toList ++ rest).take 7 = "texunit".toList := by
  have : "texunit".toList = ['t', 'e', 'x', 'u', 'n', 'i', 't'] := rfl
  rw [this]
  rfl

theorem ne_of_take_ne {key lit : List Char} (hk : key.take 7 = "texunit".toList)
    (hl : lit.take 7 ≠ "texunit".toList) : key ≠ lit := by
  intro h
  rw [h] at hk
  exact hl hk

theorem uniformLocs_texunit {key : List Char} (hk : key.take 7 = "texunit".toList) :
    uniformLocs key = none := by
  have hn : ∀ lit : List Char, lit.take 7 ≠ "texunit".toList → key ≠ lit :=
    fun _ hl => ne_of_take_ne hk hl
  have h_cameraloc : key ≠ "cameraloc".toList := hn _ (by decide)
  have h_viewmatrixloc : key ≠ "viewmatrixloc".toList := hn _ (by decide)
  have h_projmatrixloc : key ≠ "projmatrixloc".toList := hn _ (by decide)
  have h_viprmatrixloc : key ≠ "viprmatrixloc".toList := hn _ (by decide)
  have h_camerainvloc : key ≠ "camerainvloc".toList := hn _ (by decide)
  have h_viewmatrixinvloc : key ≠ "viewmatrixinvloc".toList := hn _ (by decide)
  have h_projmatrixinvloc : key ≠ "projmatrixinvloc".toList := hn _ (by decide)
  have h_viprmatrixinvloc : key ≠ "viprmatrixinvloc".toList := hn _ (by decide)
  have h_cameraposloc : key ≠ "cameraposloc".toList := hn _ (by decide)
  have h_cameradirloc : key ≠ "cameradirloc".toList := hn _ (by decide)
  have h_sunposloc : key ≠ "sunposloc".toList := hn _ (by decide)
  have h_sundirloc : key ≠ "sundirloc".toList := hn _ (by decide)
  have h_shadowloc : key ≠ "shadowloc".toList := hn _ (by decide)
  have h_shadowmatrixloc : key ≠ "shadowmatrixloc".toList := hn _ (by decide)
  have h_shadowparamsloc : key ≠ "shadowparamsloc".toList := hn _ (by decide)
  simp only [uniformLocs, h_cameraloc, h_viewmatrixloc, h_projmatrixloc, h_viprmatrixloc,
    h_camerainvloc, h_viewmatrixinvloc, h_projmatrixinvloc, h_viprmatrixinvloc,
    h_cameraposloc, h_cameradirloc, h_sunposloc, h_sundirloc, h_shadowloc,
    h_shadowmatrixloc, h_shadowparamsloc, if_false]

theorem parseEntry_texunit {key : List Char} (hk : key.take 7 = "texunit".toList)
    (st : ParseState Tex) (k v : Val) (hs : api.israwstring k = true)
    (hkey : StringToLower (api.tostring k) = key) :
    parseEntry api ParseShader ParseTexture ParseDisplayList maxTexUnits st k v =
      parseTexUnit api ParseTexture maxTexUnits st key v := by
  have hn : ∀ lit : List Char, lit.take 7 ≠ "texunit".toList → key ≠ lit :=
    fun _ hl => ne_of_take_ne hk hl
  have h_shader : key ≠ "shader".toList := hn _ (by decide)
  have h_standard_shader : key ≠ "standard_shader".toList := hn _ (by decide)
  have h_deferred : key ≠ "deferred".toList := hn _ (by decide)
  have h_deferred_shader : key ≠ "deferred_shader".toList := hn _ (by decide)
  simp only [Spring.parseEntry, hs, not_true_eq_false, if_false, hkey, uniformLocs_texunit hk,
    Spring.parseKey, h_shader, h_standard_shader, h_deferred, h_deferred_shader, or_self, hk,
    if_true]

theorem parseTexUnit_skip (st : ParseState Tex) (v : Val) (c : Char) (r : List Char)
    (hc : c ≠ 's') (hu : maxTexUnits ≤ toUnsigned (atoi (c :: r))) :
    parseTexUnit api ParseTexture maxTexUnits st ("texunit".toList ++ c :: r) v = st := by
  have hlit : "texunit".toList = ['t', 'e', 'x', 'u', 'n', 'i', 't'] := rfl
  have h1 : ¬ ("texunit".toList ++ c :: r).length < 8 := by
    rw [hlit]
    simp
  have h2 : ("texunit".toList ++ c :: r).get? 7 ≠ some 's' := by
    rw [hlit]
    simpa using hc
  have h3 : ("texunit".toList ++ c :: r).drop 7 = c :: r := by
    rw [hlit]
    rfl
  simp only [Spring.parseTexUnit, h1, h2, h3, if_false, ge_iff_le, hu, if_true]

theorem parseTexUnit_bare (st : ParseState Tex) (v : Val) :
    parseTexUnit api ParseTexture maxTexUnits st "texunit".toList v = st := by
  have h1 : "texunit".toList.length < 8 := by decide
  simp only [Spring.parseTexUnit, h1, if_true]

end ParseLemmas

/-! ### C10 -/

/-- C10: `Parse` never writes a texture unit out of range. For every table,
`ParseTexture` is called only on `textures[i]` with `i < maxTexUnits`, and the
units it is not called on are unchanged; an entry with key `texunitN`, or an
entry of the `texunits` table, whose index converted to `unsigned int` is at
least `maxTexUnits` is skipped and leaves the whole material unchanged; so is
the bare key `texunit`. -/
theorem Parse_texture_units_in_range {Tex Val : Type} (api : LuaApi Val)
    (ParseShader : Val → LuaMatShader → LuaMatShader) (ParseTexture : Val → Tex → Tex)
    (ParseDisplayList : Val → Nat) (maxTexUnits : Nat) (m : LuaMaterial Tex)
    (table : List (Val × Val)) :
    (∀ i ∈ (Parse api ParseShader ParseTexture ParseDisplayList maxTexUnits m table).texWrites,
      i < maxTexUnits) ∧
    (∀ i, i ∉ (Parse api ParseShader ParseTexture ParseDisplayList maxTexUnits m table).texWrites →
      (Parse api ParseShader ParseTexture ParseDisplayList maxTexUnits m table).mat.textures i =
        m.textures i) ∧
    (∀ i, maxTexUnits ≤ i →
      (Parse api ParseShader ParseTexture ParseDisplayList maxTexUnits m table).mat.textures i =
        m.textures i) ∧
    (∀ (st : ParseState Tex) (k v : Val) (c : Char) (r : List Char),
      api.israwstring k = true →
      StringToLower (api.tostring k) = "texunit".toList ++ c :: r → c ≠ 's' →
      maxTexUnits ≤ toUnsigned (atoi (c :: r)) →
      parseEntry api ParseShader ParseTexture ParseDisplayList maxTexUnits st k v = st) ∧
    (∀ (st : ParseState Tex) (k v : Val), api.israwnumber k = true →
      maxTexUnits ≤ toUnsigned (api.toint k) →
      texUnitsEntry api ParseTexture maxTexUnits st k v = st) ∧
    (∀ (st : ParseState Tex) (k v : Val), api.israwstring k = true →
      StringToLower (api.tostring k) = "texunit".toList →
      parseEntry api ParseShader ParseTexture ParseDisplayList maxTexUnits st k v = st) := by
  have h0 : TexInv maxTexUnits m (⟨m, [], false⟩ : ParseState Tex) :=
    ⟨fun i hi => (by cases hi), fun i _ => rfl⟩
  have hP : TexInv maxTexUnits m
      (Parse api ParseShader ParseTexture ParseDisplayList maxTexUnits m table) :=
    TexInv.parseLoop api ParseShader ParseTexture ParseDisplayList maxTexUnits table h0
  refine ⟨hP.1, hP.2, ?_, ?_, ?_, ?_⟩
  · intro i hi
    apply hP.2
    intro hmem
    have := hP.1 i hmem
    omega
  · intro st k v c r hs hkey hc hu
    rw [parseEntry_texunit api ParseShader ParseTexture ParseDisplayList maxTexUnits
      (take_texunit (c :: r)) st k v hs hkey]
    exact parseTexUnit_skip api ParseTexture maxTexUnits st v c r hc hu
  · intro st k v hn hu
    simp only [texUnitsEntry, hn, not_true_eq_false, if_false, ge_iff_le, hu, if_true]
  · intro st k v hs hkey
    rw [parseEntry_texunit api ParseShader ParseTexture ParseDisplayList maxTexUnits
      (take_texunit []) st k v hs (by simpa using hkey)]
    simpa using parseTexUnit_bare api ParseTexture maxTexUnits st v

/-- A use of C10 on `sampleTable` with 16 texture units: `ParseTexture` is
called on the units 3 and 2 only; the keys `texunit-1` (index 4294967295),
`texunit16`, `texunit`, and the entries -5 and 99 of `texunits` are
skipped. -/
theorem Parse_texture_units_in_range_witness :
    sampleParse.texWrites = [3, 2] ∧ (∀ i ∈ sampleParse.texWrites, i < 16) ∧
    toUnsigned (atoi "-1".toList) = 4294967295 :=
  ⟨by decide,
   (Parse_texture_units_in_range simpleApi (fun _ s => s) (fun _ _ => 1) (fun _ => 0) 16
      plainMat sampleTable).1,
   by decide⟩


/-! ### C11 -/

theorem ShaderTypes.Distinct.ne {E : ShaderTypes} (hd : E.Distinct) :
    (¬ E.LUASHADER_NONE = E.LUASHADER_GL) ∧
    (¬ E.LUASHADER_NONE = E.LUASHADER_DEF_3DO) ∧
    (¬ E.LUASHADER_NONE = E.LUASHADER_DEF_S3O) ∧
    (¬ E.LUASHADER_NONE = E.LUASHADER_DEF_OBJ) ∧
    (¬ E.LUASHADER_NONE = E.LUASHADER_DEF_ASS) ∧
    (¬ E.LUASHADER_GL = E.LUASHADER_NONE) ∧
    (¬ E.LUASHADER_GL = E.LUASHADER_DEF_3DO) ∧
    (¬ E.LUASHADER_GL = E.LUASHADER_DEF_S3O) ∧
    (¬ E.LUASHADER_GL = E.LUASHADER_DEF_OBJ) ∧
    (¬ E.LUASHADER_GL = E.LUASHADER_DEF_ASS) ∧
    (¬ E.LUASHADER_DEF_3DO = E.LUASHADER_NONE) ∧
    (¬ E.LUASHADER_DEF_3DO = E.LUASHADER_GL) ∧
    (¬ E.LUASHADER_DEF_3DO = E.LUASHADER_DEF_S3O) ∧
    (¬ E.LUASHADER_DEF_3DO = E.LUASHADER_DEF_OBJ) ∧
    (¬ E.LUASHADER_DEF_3DO = E.LUASHADER_DEF_ASS) ∧
    (¬ E.LUASHADER_DEF_S3O = E.LUASHADER_NONE) ∧
    (¬ E.LUASHADER_DEF_S3O = E.LUASHADER_GL) ∧
    (¬ E.LUASHADER_DEF_S3O = E.LUASHADER_DEF_3DO) ∧
    (¬ E.LUASHADER_DEF_S3O = E.LUASHADER_DEF_OBJ) ∧
    (¬ E.LUASHADER_DEF_S3O = E.LUASHADER_DEF_ASS) ∧
    (¬ E.LUASHADER_DEF_OBJ = E.LUASHADER_NONE) ∧
    (¬ E.LUASHADER_DEF_OBJ = E.LUASHADER_GL) ∧
    (¬ E.LUASHADER_DEF_OBJ = E.LUASHADER_DEF_3DO) ∧
    (¬ E.LUASHADER_DEF_OBJ = E.LUASHADER_DEF_S3O) ∧
    (¬ E.LUASHADER_DEF_OBJ = E.LUASHADER_DEF_ASS) ∧
    (¬ E.LUASHADER_DEF_ASS = E.LUASHADER_NONE) ∧
    (¬ E.LUASHADER_DEF_ASS = E.LUASHADER_GL) ∧
    (¬ E.LUASHADER_DEF_ASS = E.LUASHADER_DEF_3DO) ∧
    (¬ E.LUASHADER_DEF_ASS = E.LUASHADER_DEF_S3O) ∧
    (¬ E.LUASHADER_DEF_ASS = E.LUASHADER_DEF_OBJ) := by
  simp only [ShaderTypes.Distinct, List.nodup_cons, List.mem_cons, List.mem_singleton,
    List.not_mem_nil, not_or, List.nodup_nil, or_false, and_true] at hd
  casesm* _ ∧ _
  repeat' apply And.intro
  all_goals first
    | assumption
    | (intro h; have h2 := h.symm; contradiction)

theorem resetPrev_eq_spec {Tex : Type} (E : ShaderTypes) (hd : E.Distinct)
    (resetFuncs : Int → Bool) (prev : LuaMatShader) (deferredPass : Bool)
    (hv : E.Valid prev.type) :
    (LuaMatShader.resetPrev E resetFuncs prev deferredPass : List (GLCall Tex)) =
      specReset E resetFuncs prev.type deferredPass := by
  obtain ⟨n01, n02, n03, n04, n05, n10, n12, n13, n14, n15, n20, n21, n23, n24, n25, n30, n31, n32, n34, n35, n40, n41, n42, n43, n45, n50, n51, n52, n53, n54⟩ := hd.ne
  simp only [ShaderTypes.Valid, List.mem_cons, List.mem_singleton, List.not_mem_nil,
    or_false] at hv
  unfold LuaMatShader.resetPrev specReset LuaMatShader.isDef
  rcases hv with h | h | h | h | h | h <;> rw [h] <;> simp [*]

theorem setupThis_eq_spec {Tex : Type} (E : ShaderTypes) (hd : E.Distinct)
    (setupFuncs : Int → Bool) (s : LuaMatShader) (deferredPass : Bool)
    (hv : E.Valid s.type) :
    (LuaMatShader.setupThis E setupFuncs s deferredPass : List (GLCall Tex)) =
      specSetup E setupFuncs s deferredPass := by
  obtain ⟨n01, n02, n03, n04, n05, n10, n12, n13, n14, n15, n20, n21, n23, n24, n25, n30, n31, n32, n34, n35, n40, n41, n42, n43, n45, n50, n51, n52, n53, n54⟩ := hd.ne
  simp only [ShaderTypes.Valid, List.mem_cons, List.mem_singleton, List.not_mem_nil,
    or_false] at hv
  unfold LuaMatShader.setupThis specSetup LuaMatShader.isDef
  rcases hv with h | h | h | h | h | h <;> rw [h] <;> simp [*]

/-- C11: `LuaMatShader::Execute` tears down the previous shader state before
it sets up the new one. For shaders `s` and `prev` of different, valid types
the calls are exactly the teardown of `prev` followed by the setup of `s`:
the teardown is `glUseProgram(0)` for `LUASHADER_GL`, the registered reset
function for a `LUASHADER_DEF_*` type if there is one, and nothing for
`LUASHADER_NONE`; the setup is `glUseProgram(s.openglID)`, the registered
setup function if there is one, and nothing, in the same way. -/
theorem LuaMatShader_Execute_type_change {Tex : Type} (E : ShaderTypes) (hd : E.Distinct)
    (setupFuncs resetFuncs : Int → Bool) (s prev : LuaMatShader) (deferredPass : Bool)
    (hne : s.type ≠ prev.type) (hvs : E.Valid s.type) (hvp : E.Valid prev.type) :
    (LuaMatShader.Execute E setupFuncs resetFuncs s prev deferredPass : List (GLCall Tex)) =
      specReset E resetFuncs prev.type deferredPass ++ specSetup E setupFuncs s deferredPass := by
  rw [← resetPrev_eq_spec E hd resetFuncs prev deferredPass hvp,
    ← setupThis_eq_spec E hd setupFuncs s deferredPass hvs]
  simp only [LuaMatShader.Execute, hne, ne_eq, not_false_eq_true, if_true]

/-- A use of C11 with the enumeration in declaration order and every function
registered: switching from a `LUASHADER_DEF_S3O` shader to a `LUASHADER_GL`
shader with program 7 calls the reset function of the old type and then
`glUseProgram(7)`. -/
theorem LuaMatShader_Execute_type_change_witness :
    (LuaMatShader.Execute ShaderTypes.inOrder (fun _ => true) (fun _ => true)
      ⟨1, 7⟩ ⟨3, 0⟩ false : List (GLCall Unit)) =
      [GLCall.resetDrawState 3 false, GLCall.glUseProgram 7] :=
  LuaMatShader_Execute_type_change ShaderTypes.inOrder (by decide) (fun _ => true)
    (fun _ => true) ⟨1, 7⟩ ⟨3, 0⟩ false (by decide) (by decide) (by decide)


/-! ### Finalize -/

section FinalizeLemmas

variable {Tex : Type} (ops : TextureOps Tex)

theorem finalizeUnit_textures (x : LuaMaterial Tex) (n : Nat) :
    (LuaMaterial.finalizeUnit ops x n).textures =
      Function.update x.textures n (ops.Finalize (x.textures n)) := by
  unfold LuaMaterial.finalizeUnit
  split_ifs <;> rfl

theorem finalizeUnit_texCount (x : LuaMaterial Tex) (n : Nat) :
    (LuaMaterial.finalizeUnit ops x n).texCount =
      if ops.type (ops.Finalize (x.textures n)) ≠ ops.LUATEX_NONE then (n : Int) + 1
      else x.texCount := by
  unfold LuaMaterial.finalizeUnit
  split_ifs <;> rfl

theorem finalizeUnit_shaders (x : LuaMaterial Tex) (n : Nat) :
    (LuaMaterial.finalizeUnit ops x n).shaderFwd = x.shaderFwd ∧
    (LuaMaterial.finalizeUnit ops x n).shaderDfr = x.shaderDfr := by
  unfold LuaMaterial.finalizeUnit
  split_ifs <;> exact ⟨rfl, rfl⟩

theorem finalizeLoop_shaders (m : LuaMaterial Tex) (n : Nat) :
    (LuaMaterial.finalizeLoop ops m n).shaderFwd = m.shaderFwd ∧
    (LuaMaterial.finalizeLoop ops m n).shaderDfr = m.shaderDfr := by
  induction n with
  | zero => exact ⟨rfl, rfl⟩
  | succ n ih =>
    obtain ⟨h1, h2⟩ := finalizeUnit_shaders ops (LuaMaterial.finalizeLoop ops m n) n
    exact ⟨h1.trans ih.1, h2.trans ih.2⟩

theorem finalizeLoop_textures (m : LuaMaterial Tex) (n : Nat) :
    ∀ t, (LuaMaterial.finalizeLoop ops m n).textures t =
      if t < n then ops.Finalize (m.textures t) else m.textures t := by
  induction n with
  | zero => intro t; simp [LuaMaterial.finalizeLoop]
  | succ n ih =>
    intro t
    have hn : (LuaMaterial.finalizeLoop ops m n).textures n = m.textures n := by
      rw [ih n]
      simp
    rw [LuaMaterial.finalizeLoop, finalizeUnit_textures, hn]
    by_cases htn : t = n
    · subst htn
      simp
    · rw [Function.update_noteq htn, ih t]
      have : t < n + 1 ↔ t < n := by omega
      simp only [this]

theorem finalizeLoop_texCount (m : LuaMaterial Tex) (h0 : m.texCount = 0) (n : Nat) :
    0 ≤ (LuaMaterial.finalizeLoop ops m n).texCount ∧
    (LuaMaterial.finalizeLoop ops m n).texCount ≤ n ∧
    (∀ i : Nat, (LuaMaterial.finalizeLoop ops m n).texCount ≤ i → i < n →
      ops.type (ops.Finalize (m.textures i)) = ops.LUATEX_NONE) ∧
    ((LuaMaterial.finalizeLoop ops m n).texCount ≠ 0 →
      ops.type (ops.Finalize
        (m.textures ((LuaMaterial.finalizeLoop ops m n).texCount.toNat - 1))) ≠
        ops.LUATEX_NONE) := by
  induction n with
  | zero =>
    simp only [LuaMaterial.finalizeLoop, h0]
    refine ⟨le_refl _, by simp, ?_, ?_⟩
    · intro i _ hi
      omega
    · intro h
      exact absurd rfl h
  | succ n ih =>
    obtain ⟨h1, h2, h3, h4⟩ := ih
    have hn : (LuaMaterial.finalizeLoop ops m n).textures n = m.textures n := by
      rw [finalizeLoop_textures ops m n n]
      simp
    rw [LuaMaterial.finalizeLoop, finalizeUnit_texCount, hn]
    by_cases hty : ops.type (ops.Finalize (m.textures n)) = ops.LUATEX_NONE
    · simp only [hty, ne_eq, not_true_eq_false, if_false]
      refine ⟨h1, by push_cast; omega, ?_, h4⟩
      intro i hi hlt
      by_cases hin : i = n
      · subst hin
        exact hty
      · exact h3 i hi (by omega)
    · simp only [hty, ne_eq, not_false_eq_true, if_true]
      refine ⟨by omega, by push_cast; omega, ?_, ?_⟩
      · intro i hi hlt
        omega
      · intro _
        have : ((n : Int) + 1).toNat - 1 = n := by omega
        rw [this]
        exact hty

end FinalizeLemmas

/-! ### C12 -/

/-- C12: `LuaMaterial::Finalize` computes the number of used texture units.
For a material whose `texCount` is 0 before the call, afterwards: `texCount`
is 0 if every unit below `maxTexUnits` has type `LUATEX_NONE` after its own
`Finalize`, and otherwise it is 1 plus the largest index below `maxTexUnits`
whose unit is not of type `LUATEX_NONE`; so `0 ≤ texCount ≤ maxTexUnits` and
every unit from `texCount` up to `maxTexUnits` has type `LUATEX_NONE`. Each
unit below `maxTexUnits` is the finalized unit, and both shader slots are
finalized, so a shader that is not `LUASHADER_GL` has `openglID` 0. -/
theorem LuaMaterial_Finalize_texCount {Tex : Type} (E : ShaderTypes) (ops : TextureOps Tex)
    (maxTexUnits : Nat) (m : LuaMaterial Tex) (h0 : m.texCount = 0) :
    (∀ t, t < maxTexUnits →
      (LuaMaterial.Finalize E ops maxTexUnits m).textures t = ops.Finalize (m.textures t)) ∧
    ((∀ t, t < maxTexUnits →
        ops.type ((LuaMaterial.Finalize E ops maxTexUnits m).textures t) = ops.LUATEX_NONE) →
      (LuaMaterial.Finalize E ops maxTexUnits m).texCount = 0) ∧
    (∀ t, t < maxTexUnits →
      ops.type ((LuaMaterial.Finalize E ops maxTexUnits m).textures t) ≠ ops.LUATEX_NONE →
      (∀ u, t < u → u < maxTexUnits →
        ops.type ((LuaMaterial.Finalize E ops maxTexUnits m).textures u) = ops.LUATEX_NONE) →
      (LuaMaterial.Finalize E ops maxTexUnits m).texCount = (t : Int) + 1) ∧
    (0 ≤ (LuaMaterial.Finalize E ops maxTexUnits m).texCount ∧
      (LuaMaterial.Finalize E ops maxTexUnits m).texCount ≤ maxTexUnits) ∧
    (∀ i : Nat, (LuaMaterial.Finalize E ops maxTexUnits m).texCount ≤ i → i < maxTexUnits →
      ops.type ((LuaMaterial.Finalize E ops maxTexUnits m).textures i) = ops.LUATEX_NONE) ∧
    ((LuaMaterial.Finalize E ops maxTexUnits m).shaderFwd = m.shaderFwd.Finalize E ∧
      (LuaMaterial.Finalize E ops maxTexUnits m).shaderDfr = m.shaderDfr.Finalize E) ∧
    (((LuaMaterial.Finalize E ops maxTexUnits m).shaderFwd.type ≠ E.LUASHADER_GL →
        (LuaMaterial.Finalize E ops maxTexUnits m).shaderFwd.openglID = 0) ∧
      ((LuaMaterial.Finalize E ops maxTexUnits m).shaderDfr.type ≠ E.LUASHADER_GL →
        (LuaMaterial.Finalize E ops maxTexUnits m).shaderDfr.openglID = 0)) := by
  have hsh : ∀ s : LuaMatShader, (s.Finalize E).type ≠ E.LUASHADER_GL →
      (s.Finalize E).openglID = 0 := by
    intro s
    unfold LuaMatShader.Finalize
    split_ifs with h
    · intro _; rfl
    · intro h2; exact absurd h2 h
  have htex : ∀ t, t < maxTexUnits →
      (LuaMaterial.Finalize E ops maxTexUnits m).textures t = ops.Finalize (m.textures t) := by
    intro t ht
    unfold LuaMaterial.Finalize
    rw [finalizeLoop_textures]
    simp [ht]
  obtain ⟨h1, h2, h3, h4⟩ := finalizeLoop_texCount ops
    { m with shaderFwd := m.shaderFwd.Finalize E, shaderDfr := m.shaderDfr.Finalize E }
    h0 maxTexUnits
  obtain ⟨h5, h6⟩ := finalizeLoop_shaders ops
    { m with shaderFwd := m.shaderFwd.Finalize E, shaderDfr := m.shaderDfr.Finalize E }
    maxTexUnits
  have hF : LuaMaterial.Finalize E ops maxTexUnits m =
      LuaMaterial.finalizeLoop ops
        { m with shaderFwd := m.shaderFwd.Finalize E, shaderDfr := m.shaderDfr.Finalize E }
        maxTexUnits := rfl
  rw [← hF] at h1 h2 h3 h4 h5 h6
  have hnone : ∀ i : Nat, (LuaMaterial.Finalize E ops maxTexUnits m).texCount ≤ i →
      i < maxTexUnits →
      ops.type ((LuaMaterial.Finalize E ops maxTexUnits m).textures i) = ops.LUATEX_NONE := by
    intro i hi hlt
    rw [htex i hlt]
    exact h3 i hi hlt
  have hlast : (LuaMaterial.Finalize E ops maxTexUnits m).texCount ≠ 0 →
      ops.type ((LuaMaterial.Finalize E ops maxTexUnits m).textures
        ((LuaMaterial.Finalize E ops maxTexUnits m).texCount.toNat - 1)) ≠ ops.LUATEX_NONE := by
    intro hne
    have hb : (LuaMaterial.Finalize E ops maxTexUnits m).texCount.toNat - 1 < maxTexUnits := by
      omega
    rw [htex _ hb]
    exact h4 hne
  have hge : 0 ≤ (LuaMaterial.Finalize E ops maxTexUnits m).texCount := h1
  have hle : (LuaMaterial.Finalize E ops maxTexUnits m).texCount ≤ maxTexUnits := h2
  refine ⟨htex, ?_, ?_, ⟨hge, hle⟩, hnone, ⟨h5, h6⟩, ?_⟩
  · intro hall
    by_contra hne
    have hb : (LuaMaterial.Finalize E ops maxTexUnits m).texCount.toNat - 1 < maxTexUnits := by
      omega
    exact hlast hne (hall _ hb)
  · intro t ht hty hrest
    have hgt : (t : Int) < (LuaMaterial.Finalize E ops maxTexUnits m).texCount := by
      by_contra hcon
      exact hty (hnone t (by omega) ht)
    have hne : (LuaMaterial.Finalize E ops maxTexUnits m).texCount ≠ 0 := by omega
    have hl := hlast hne
    by_contra hcon
    have hu : t < (LuaMaterial.Finalize E ops maxTexUnits m).texCount.toNat - 1 := by omega
    exact hl (hrest _ hu (by omega))
  · rw [h5, h6]
    exact ⟨hsh _, hsh _⟩

/-- A use of C12 with four texture units: the material with 5 in unit 1 and
nothing else gets `texCount` 2, and its forward shader, which is not
`LUASHADER_GL`, loses its program id. -/
theorem LuaMaterial_Finalize_texCount_witness :
    (LuaMaterial.Finalize ShaderTypes.inOrder intTextureOps 4 unfinishedMat).texCount = 2 ∧
    (LuaMaterial.Finalize ShaderTypes.inOrder intTextureOps 4 unfinishedMat).shaderFwd.openglID =
      0 :=
  ⟨(LuaMaterial_Finalize_texCount ShaderTypes.inOrder intTextureOps 4 unfinishedMat rfl).2.2.1
      1 (by decide) (by decide) (by intro u h1 h2; interval_cases u <;> decide),
   (LuaMaterial_Finalize_texCount ShaderTypes.inOrder intTextureOps 4 unfinishedMat
      rfl).2.2.2.2.2.2.1 (by decide)⟩

/-! ### C13 -/

theorem toUnsigned_cast (x : Int) : (toUnsigned x : Int) = x % 2 ^ 32 := by
  unfold toUnsigned
  have h : (2 : Int) ^ 32 = 4294967296 := by norm_num
  rw [h]
  omega

theorem resize_length {Lod : Type} (dflt : Lod) (v : List Lod) (n : Nat) :
    (LuaObjectMaterial.resize dflt v n).length = n := by
  simp only [LuaObjectMaterial.resize, List.length_append, List.length_take,
    List.length_replicate]
  omega

/-- C13: the LOD bounds of `LuaObjectMaterial` in unsigned 32-bit arithmetic.
`SetLODCount(count)` sets `lodCount` to `count`, resizes `lodMats` to `count`
entries and sets `lastLOD` to `(count - 1) mod 2^32`; `SetLastLOD(lod)` sets
`lastLOD` to the minimum of `lod` and `(lodCount - 1) mod 2^32`; both return
true. So for a `count` of at least 1 and every `lod`, after `SetLODCount(count)`
and then `SetLastLOD(lod)`, `lastLOD` is the minimum of `lod` and `count - 1`,
which is below the size of `lodMats`. -/
theorem LuaObjectMaterial_LOD_bounds {Lod : Type} (dflt : Lod) (m : LuaObjectMaterial Lod)
    (count lod : Nat) :
    ((LuaObjectMaterial.SetLODCount dflt m count).1 = true ∧
      (LuaObjectMaterial.SetLODCount dflt m count).2.lodCount = count ∧
      (LuaObjectMaterial.SetLODCount dflt m count).2.lodMats.length = count ∧
      ((LuaObjectMaterial.SetLODCount dflt m count).2.lastLOD : Int) =
        ((count : Int) - 1) % 2 ^ 32) ∧
    ((LuaObjectMaterial.SetLastLOD m lod).1 = true ∧
      ((LuaObjectMaterial.SetLastLOD m lod).2.lastLOD : Int) =
        min (lod : Int) (((m.lodCount : Int) - 1) % 2 ^ 32) ∧
      (LuaObjectMaterial.SetLastLOD m lod).2.lodCount = m.lodCount ∧
      (LuaObjectMaterial.SetLastLOD m lod).2.lodMats = m.lodMats) ∧
    (1 ≤ count → count < 2 ^ 32 →
      (LuaObjectMaterial.SetLastLOD (LuaObjectMaterial.SetLODCount dflt m count).2 lod).2.lastLOD =
        min lod (count - 1) ∧
      (LuaObjectMaterial.SetLastLOD (LuaObjectMaterial.SetLODCount dflt m count).2 lod).2.lastLOD <
        (LuaObjectMaterial.SetLastLOD
          (LuaObjectMaterial.SetLODCount dflt m count).2 lod).2.lodMats.length) := by
  refine ⟨⟨rfl, rfl, resize_length dflt m.lodMats count, toUnsigned_cast _⟩,
    ⟨rfl, ?_, rfl, rfl⟩, ?_⟩
  · show ((min lod (toUnsigned ((m.lodCount : Int) - 1)) : Nat) : Int) = _
    rw [← toUnsigned_cast]
    omega
  · intro h1 h2
    have hw : toUnsigned ((count : Int) - 1) = count - 1 := by
      have h := toUnsigned_cast ((count : Int) - 1)
      have hp : (2 : Int) ^ 32 = 4294967296 := by norm_num
      have hq : (2 : Nat) ^ 32 = 4294967296 := by norm_num
      rw [hp] at h
      rw [hq] at h2
      omega
    have hlast : (LuaObjectMaterial.SetLastLOD
        (LuaObjectMaterial.SetLODCount dflt m count).2 lod).2.lastLOD = min lod (count - 1) := by
      show min lod (toUnsigned ((count : Int) - 1)) = min lod (count - 1)
      rw [hw]
    refine ⟨hlast, ?_⟩
    rw [hlast]
    show min lod (count - 1) < (LuaObjectMaterial.resize dflt m.lodMats count).length
    rw [resize_length]
    omega

/-- A use of C13 on a material without LOD entries: after `SetLODCount(3)`
and `SetLastLOD(7)` the last LOD is 2, and `SetLODCount(0)` wraps the last LOD
to 4294967295. -/
theorem LuaObjectMaterial_LOD_bounds_witness :
    (LuaObjectMaterial.SetLastLOD
      (LuaObjectMaterial.SetLODCount () ⟨0, 0, []⟩ 3).2 7).2.lastLOD = min 7 (3 - 1) ∧
    (LuaObjectMaterial.SetLODCount () ⟨0, 0, []⟩ 0).2.lastLOD = 4294967295 :=
  ⟨((LuaObjectMaterial_LOD_bounds () ⟨0, 0, []⟩ 3 7).2.2 (by decide) (by decide)).1,
   by decide⟩

end Spring
